import Mathlib

/-!
Verification of the awakening enhancement simulation core
(`packages/simulator/src/simulator.ts` and the Monte Carlo aggregation
helpers).  The TypeScript source is shallowly embedded: the mutable
`AwakeningEngine` becomes explicit state passing over `EngineState`,
the seeded `createRng` closure becomes a pure Mulberry32 stream, the
unseeded `Math.random` fallback becomes an ambient stream of rationals,
and the `while` loops of the three batch-runner variants become
fuel-indexed recursions returning `Option` (with `none` meaning the
loop has not yet finished within the given fuel).
-/

namespace BdmSim

/-! ## Static configuration constants (from `config.ts`) -/

/-- Restoration scroll success rate (50% chance to prevent downgrade). -/
def RESTORATION_SUCCESS_RATE : ℚ := mkRat 1 2

/-- Restoration scrolls consumed per restoration attempt. -/
def RESTORATION_PER_ATTEMPT : ℕ := 200

/-- Restoration market bundle size (200K scrolls per bundle). -/
def RESTORATION_MARKET_BUNDLE_SIZE : ℕ := 200000

/-- Valks +10% multiplier (x1.1). -/
def VALKS_MULTIPLIER_10 : ℚ := mkRat 11 10

/-- Valks +50% multiplier (x1.5). -/
def VALKS_MULTIPLIER_50 : ℚ := mkRat 3 2

/-- Valks +100% multiplier (x2.0). -/
def VALKS_MULTIPLIER_100 : ℚ := 2

/-! ## Data model (from `types.ts`) -/

/-- Market prices configuration (`MarketPrices`). -/
structure MarketPrices where
  crystalPrice : ℕ
  restorationBundlePrice : ℕ
  valks10Price : ℕ
  valks50Price : ℕ
  valks100Price : ℕ
  deriving DecidableEq

/-- Exquisite black crystal crafting recipe (`ExquisiteRecipe`). -/
structure ExquisiteRecipe where
  restorationScrolls : ℕ
  valks100 : ℕ
  pristineBlackCrystal : ℕ
  deriving DecidableEq

/-- Tunable game settings consulted by the engine (`GameSettings`).
Sparse numeric records from the source (`Record<number, number>`)
become functions into `Option`. -/
structure GameSettings where
  enhancementRates : ℤ → Option ℚ
  anvilThresholds : ℤ → Option ℕ
  heptaSubEnhancements : ℕ
  oktaSubEnhancements : ℕ
  heptaOktaSuccessRate : ℚ
  heptaOktaAnvilPity : ℕ
  heptaOktaCrystalsPerAttempt : ℕ
  exquisiteRecipe : ExquisiteRecipe
  enhancementCostPerAttempt : ℕ

/-- Simulation configuration (`SimulationConfig`).  The engine always
reads its settings through the cached `gameSettings`, so the
`?? DEFAULT_GAME_SETTINGS` fallback is modelled by making the field
mandatory. -/
structure SimulationConfig where
  startLevel : ℕ
  targetLevel : ℕ
  restorationFrom : ℕ
  useHepta : Bool
  useOkta : Bool
  startHepta : ℕ
  startOkta : ℕ
  valks10From : ℕ
  valks50From : ℕ
  valks100From : ℕ
  prices : MarketPrices
  gameSettings : GameSettings

/-- Which Valks buff tier was applied on an attempt (the source uses
the strings `10` / `50` / `100`, or `null`). -/
inductive ValksType where
  | v10
  | v50
  | v100
  deriving DecidableEq

/-- Which sub-path a step belonged to (the source uses the strings
`Hepta` / `Okta`, or the empty string for a normal step). -/
inductive PathName where
  | emptyName
  | hepta
  | okta
  deriving DecidableEq

/-- Result of a single enhancement step (`StepResult`). -/
structure StepResult where
  success : Bool
  anvilTriggered : Bool
  startingLevel : ℤ
  endingLevel : ℤ
  valksUsed : Option ValksType
  restorationAttempted : Bool
  restorationSuccess : Bool
  isHeptaOkta : Bool
  subProgress : ℕ
  subPity : ℕ
  pathComplete : Bool
  pathName : PathName
  deriving DecidableEq

/-- Result of a complete recorded simulation run (`SimulationResult`). -/
structure SimulationResult where
  crystals : ℕ
  scrolls : ℕ
  silver : ℕ
  exquisiteCrystals : ℕ
  attempts : ℕ
  finalLevel : ℤ
  anvilEnergy : ℤ → Option ℕ
  valks10Used : ℕ
  valks50Used : ℕ
  valks100Used : ℕ
  steps : Option (List StepResult)

/-- The 7-tuple returned by `runFast`:
(crystals, scrolls, silver, exquisite, valks10, valks50, valks100). -/
structure FastTotals where
  crystals : ℕ
  scrolls : ℕ
  silver : ℕ
  exquisiteCrystals : ℕ
  valks10Used : ℕ
  valks50Used : ℕ
  valks100Used : ℕ
  deriving DecidableEq

/-- The 8-tuple returned by `runFastWithLimits`: the fast totals plus a
success flag (1 if the target was reached, 0 if resources ran out). -/
structure LimitTotals where
  crystals : ℕ
  scrolls : ℕ
  silver : ℕ
  exquisiteCrystals : ℕ
  valks10Used : ℕ
  valks50Used : ℕ
  valks100Used : ℕ
  success : ℕ
  deriving DecidableEq

/-- Optional per-consumable caps accepted by `runFastWithLimits`
(`undefined` = unlimited becomes `none`). -/
structure ResourceLimits where
  crystals : Option ℕ
  scrolls : Option ℕ
  valks10 : Option ℕ
  valks50 : Option ℕ
  valks100 : Option ℕ
  deriving DecidableEq

/-- The all-unlimited limits record (every cap `undefined`). -/
def noLimits : ResourceLimits := ⟨none, none, none, none, none⟩

/-! ## Seeded random number generator (`createRng`, Mulberry32) -/

/-- One unit more than the largest unsigned 32-bit integer. -/
def UINT32 : ℕ := 4294967296

/-- One step of the Mulberry32 generator: given the 32-bit state,
produce the next state together with the output in `[0, 1)`.  Machine
arithmetic is modelled on `ℕ` with explicit reduction modulo `2^32`
(`Math.imul` and `| 0` wrap to 32 bits; `>>>`, `^` and `|` act on the
32-bit pattern). -/
def mulberry32 (state : ℕ) : ℕ × ℚ :=
  let s1 := (state % UINT32 + 0x6d2b79f5) % UINT32
  let t1 := ((s1 ^^^ (s1 >>> 15)) * (1 ||| s1)) % UINT32
  let t2 := ((t1 + ((t1 ^^^ (t1 >>> 7)) * (61 ||| t1)) % UINT32) % UINT32) ^^^ t1
  let out := t2 ^^^ (t2 >>> 14)
  (s1, (out : ℚ) / 4294967296)

/-- State of the engine's random generator.  `seeded` is the Mulberry32
closure produced by `createRng(seed)`; `ambient` models the
`Math.random` fallback used when no seed is given, reading successive
values from an external entropy stream. -/
inductive RngState where
  | seeded (state : ℕ)
  | ambient (idx : ℕ)

/-- Draw one uniform value.  A seeded generator ignores the ambient
entropy stream `ext` entirely. -/
def draw (ext : ℕ → ℚ) : RngState → ℚ × RngState
  | RngState.seeded n =>
      let p := mulberry32 n
      (p.2, RngState.seeded p.1)
  | RngState.ambient i => (ext i, RngState.ambient (i + 1))

/-- Whether the generator is the seeded (deterministic) one. -/
def RngState.isSeeded : RngState → Prop
  | RngState.seeded _ => True
  | RngState.ambient _ => False

instance (r : RngState) : Decidable r.isSeeded := by
  cases r <;> simp [RngState.isSeeded] <;> infer_instance

/-! ## Derived configuration values (engine constructor caches) -/

/-- `getRestorationAttemptCost` from `types.ts` (integer floor division). -/
def getRestorationAttemptCost (bundlePrice : ℕ) : ℕ :=
  if bundlePrice = 0 then 0
  else RESTORATION_PER_ATTEMPT * bundlePrice / RESTORATION_MARKET_BUNDLE_SIZE

/-- Cached restoration attempt cost. -/
def restorationAttemptCostOf (cfg : SimulationConfig) : ℕ :=
  getRestorationAttemptCost cfg.prices.restorationBundlePrice

/-- Pre-computed exquisite crystal crafting cost (constructor). -/
def exquisiteCostOf (cfg : SimulationConfig) : ℕ :=
  cfg.gameSettings.exquisiteRecipe.restorationScrolls * cfg.prices.restorationBundlePrice /
      RESTORATION_MARKET_BUNDLE_SIZE +
    cfg.gameSettings.exquisiteRecipe.valks100 * cfg.prices.valks100Price +
    cfg.gameSettings.exquisiteRecipe.pristineBlackCrystal * cfg.prices.crystalPrice

/-- `rateCache`: a copy of the enhancement rate table. -/
def rateCache (cfg : SimulationConfig) (level : ℤ) : Option ℚ :=
  cfg.gameSettings.enhancementRates level

/-- `rateCacheValks10`: rates with the +10% buff, capped at 1.0. -/
def rateCacheValks10 (cfg : SimulationConfig) (level : ℤ) : Option ℚ :=
  (cfg.gameSettings.enhancementRates level).map fun r => min 1 (r * VALKS_MULTIPLIER_10)

/-- `rateCacheValks50`: rates with the +50% buff, capped at 1.0. -/
def rateCacheValks50 (cfg : SimulationConfig) (level : ℤ) : Option ℚ :=
  (cfg.gameSettings.enhancementRates level).map fun r => min 1 (r * VALKS_MULTIPLIER_50)

/-- `rateCacheValks100`: rates with the +100% buff, capped at 1.0. -/
def rateCacheValks100 (cfg : SimulationConfig) (level : ℤ) : Option ℚ :=
  (cfg.gameSettings.enhancementRates level).map fun r => min 1 (r * VALKS_MULTIPLIER_100)

/-! ## Engine state -/

/-- Mutable state of one `AwakeningEngine` instance, plus its random
generator.  The sparse `anvilEnergy` record becomes a function into
`Option` (a missing key reads as `none`). -/
structure EngineState where
  level : ℤ
  anvilEnergy : ℤ → Option ℕ
  crystals : ℕ
  scrolls : ℕ
  silver : ℕ
  exquisiteCrystals : ℕ
  valks10Used : ℕ
  valks50Used : ℕ
  valks100Used : ℕ
  attempts : ℕ
  heptaProgress : ℕ
  oktaProgress : ℕ
  heptaPity : ℕ
  oktaPity : ℕ
  rng : RngState

/-- Point update of the sparse anvil-energy record. -/
def setEnergy (f : ℤ → Option ℕ) (k : ℤ) (v : ℕ) : ℤ → Option ℕ :=
  fun l => if l = k then some v else f l

/-- Engine constructor followed by `reset()`: a fresh engine for the
given configuration and optional seed. -/
def mkEngine (cfg : SimulationConfig) (seed : Option ℕ) : EngineState where
  level := (cfg.startLevel : ℤ)
  anvilEnergy := fun _ => none
  crystals := 0
  scrolls := 0
  silver := 0
  exquisiteCrystals := 0
  valks10Used := 0
  valks50Used := 0
  valks100Used := 0
  attempts := 0
  heptaProgress := cfg.startHepta
  oktaProgress := cfg.startOkta
  heptaPity := 0
  oktaPity := 0
  rng := match seed with
    | some s => RngState.seeded s
    | none => RngState.ambient 0

/-- `isComplete()`: the target tier has been reached. -/
def isComplete (cfg : SimulationConfig) (s : EngineState) : Prop :=
  (cfg.targetLevel : ℤ) ≤ s.level

instance (cfg : SimulationConfig) (s : EngineState) : Decidable (isComplete cfg s) := by
  unfold isComplete; infer_instance

/-- `shouldUseHepta()`: the Hepta sub-path handles this attempt. -/
def shouldUseHepta (cfg : SimulationConfig) (s : EngineState) : Prop :=
  (cfg.useHepta = true ∨ 0 < s.heptaProgress) ∧ s.level = 7 ∧
    s.heptaProgress < cfg.gameSettings.heptaSubEnhancements

instance (cfg : SimulationConfig) (s : EngineState) : Decidable (shouldUseHepta cfg s) := by
  unfold shouldUseHepta; infer_instance

/-- `shouldUseOkta()`: the Okta sub-path handles this attempt. -/
def shouldUseOkta (cfg : SimulationConfig) (s : EngineState) : Prop :=
  (cfg.useOkta = true ∨ 0 < s.oktaProgress) ∧ s.level = 8 ∧
    s.oktaProgress < cfg.gameSettings.oktaSubEnhancements

instance (cfg : SimulationConfig) (s : EngineState) : Decidable (shouldUseOkta cfg s) := by
  unfold shouldUseOkta; infer_instance

/-! ## Per-attempt resolution -/

/-- Valks tier selection for the upcoming attempt: priority based
(highest of 100 > 50 > 10 whose activation threshold is nonzero and at
most the next level), exactly one per attempt.  This is the `if` chain
shared verbatim by `performEnhancementStep` and `runFast`. -/
def valksSelection (cfg : SimulationConfig) (nextLevel : ℤ) : Option ValksType :=
  if 0 < cfg.valks100From ∧ (cfg.valks100From : ℤ) ≤ nextLevel then some ValksType.v100
  else if 0 < cfg.valks50From ∧ (cfg.valks50From : ℤ) ≤ nextLevel then some ValksType.v50
  else if 0 < cfg.valks10From ∧ (cfg.valks10From : ℤ) ≤ nextLevel then some ValksType.v10
  else none

/-- The effective success probability paired with the Valks selection:
the matching rate cache entry, with the source's `?? 0.01` fallback for
levels missing from the table. -/
def effectiveRate (cfg : SimulationConfig) (nextLevel : ℤ) : ℚ :=
  match valksSelection cfg nextLevel with
  | some ValksType.v100 => (rateCacheValks100 cfg nextLevel).getD (mkRat 1 100)
  | some ValksType.v50 => (rateCacheValks50 cfg nextLevel).getD (mkRat 1 100)
  | some ValksType.v10 => (rateCacheValks10 cfg nextLevel).getD (mkRat 1 100)
  | none => (rateCache cfg nextLevel).getD (mkRat 1 100)

/-- `performHeptaOktaStep`: one sub-path attempt (Hepta when
`isOkta = false`, Okta otherwise). -/
def performHeptaOktaStep (cfg : SimulationConfig) (ext : ℕ → ℚ) (isOkta : Bool)
    (s : EngineState) : StepResult × EngineState :=
  let pathName := if isOkta then PathName.okta else PathName.hepta
  let currentProgress := if isOkta then s.oktaProgress else s.heptaProgress
  let currentPity := if isOkta then s.oktaPity else s.heptaPity
  let maxProgress :=
    if isOkta then cfg.gameSettings.oktaSubEnhancements else cfg.gameSettings.heptaSubEnhancements
  -- Cost tracking
  let s1 : EngineState :=
    { s with
      exquisiteCrystals := s.exquisiteCrystals + cfg.gameSettings.heptaOktaCrystalsPerAttempt
      silver := s.silver + exquisiteCostOf cfg * cfg.gameSettings.heptaOktaCrystalsPerAttempt
      attempts := s.attempts + 1 }
  -- Check anvil pity (the roll is only drawn when pity did not trigger)
  let anvilTriggered := cfg.gameSettings.heptaOktaAnvilPity ≤ currentPity
  let succeedFrom : EngineState → Bool → StepResult × EngineState := fun s2 anvil =>
    let s3 : EngineState :=
      if isOkta then { s2 with oktaProgress := s2.oktaProgress + 1, oktaPity := 0 }
      else { s2 with heptaProgress := s2.heptaProgress + 1, heptaPity := 0 }
    let newProgress := if isOkta then s3.oktaProgress else s3.heptaProgress
    let pathComplete := maxProgress ≤ newProgress
    let s4 : EngineState :=
      if pathComplete then
        let targetLvl : ℤ := if isOkta then 9 else 8
        let s5 : EngineState :=
          { s3 with level := targetLvl, anvilEnergy := setEnergy s3.anvilEnergy targetLvl 0 }
        if isOkta then { s5 with oktaProgress := 0, oktaPity := 0 }
        else { s5 with heptaProgress := 0, heptaPity := 0 }
      else s3
    (⟨true, anvil, if pathComplete then (if isOkta then 8 else 7) else s4.level, s4.level,
        none, false, false, true, if pathComplete then 0 else newProgress, 0,
        pathComplete, pathName⟩,
      s4)
  if anvilTriggered then succeedFrom s1 true
  else
    let p := draw ext s1.rng
    let s2 : EngineState := { s1 with rng := p.2 }
    if p.1 < cfg.gameSettings.heptaOktaSuccessRate then succeedFrom s2 false
    else
      -- Failure: increment the path's pity
      let s3 : EngineState :=
        if isOkta then { s2 with oktaPity := s2.oktaPity + 1 }
        else { s2 with heptaPity := s2.heptaPity + 1 }
      (⟨false, false, s3.level, s3.level, none, false, false, true, currentProgress,
          if isOkta then s3.oktaPity else s3.heptaPity, false, pathName⟩,
        s3)

/-- `performEnhancementStep`: one normal-path attempt. -/
def performEnhancementStep (cfg : SimulationConfig) (ext : ℕ → ℚ)
    (s : EngineState) : StepResult × EngineState :=
  let startingLevel := s.level
  let nextLevel := s.level + 1
  -- Determine valks type - priority based (only ONE type per attempt)
  let valksType := valksSelection cfg nextLevel
  let baseRate := effectiveRate cfg nextLevel
  -- Check anvil pity
  let currentEnergy := (s.anvilEnergy nextLevel).getD 0
  let maxEnergy := (cfg.gameSettings.anvilThresholds nextLevel).getD 999
  let anvilTriggered := maxEnergy ≤ currentEnergy ∧ 0 < maxEnergy
  -- Resource tracking
  let s1 : EngineState :=
    { s with
      attempts := s.attempts + 1
      crystals := s.crystals + 1
      silver := s.silver + cfg.prices.crystalPrice + cfg.gameSettings.enhancementCostPerAttempt }
  -- Track Valks used (only ONE type per attempt)
  let s2 : EngineState :=
    match valksType with
    | some ValksType.v10 =>
        { s1 with valks10Used := s1.valks10Used + 1, silver := s1.silver + cfg.prices.valks10Price }
    | some ValksType.v50 =>
        { s1 with valks50Used := s1.valks50Used + 1, silver := s1.silver + cfg.prices.valks50Price }
    | some ValksType.v100 =>
        { s1 with
          valks100Used := s1.valks100Used + 1, silver := s1.silver + cfg.prices.valks100Price }
    | none => s1
  let succeedFrom : EngineState → Bool → StepResult × EngineState := fun s3 anvil =>
    (⟨true, anvil, startingLevel, nextLevel, valksType, false, false, false, 0, 0, false,
        PathName.emptyName⟩,
      { s3 with level := nextLevel, anvilEnergy := setEnergy s3.anvilEnergy nextLevel 0 })
  if anvilTriggered then succeedFrom s2 true
  else
    let p := draw ext s2.rng
    let s3 : EngineState := { s2 with rng := p.2 }
    if p.1 < baseRate then succeedFrom s3 false
    else
      -- Failure
      let s4 : EngineState :=
        { s3 with anvilEnergy := setEnergy s3.anvilEnergy nextLevel (currentEnergy + 1) }
      if 0 < s4.level ∧ 0 < cfg.restorationFrom ∧ (cfg.restorationFrom : ℤ) ≤ s4.level then
        let s5 : EngineState :=
          { s4 with
            scrolls := s4.scrolls + RESTORATION_PER_ATTEMPT
            silver := s4.silver + restorationAttemptCostOf cfg }
        let q := draw ext s5.rng
        let s6 : EngineState := { s5 with rng := q.2 }
        if q.1 < RESTORATION_SUCCESS_RATE then
          (⟨false, false, startingLevel, s6.level, valksType, true, true, false, 0, 0, false,
              PathName.emptyName⟩,
            s6)
        else
          (⟨false, false, startingLevel, s6.level - 1, valksType, true, false, false, 0, 0, false,
              PathName.emptyName⟩,
            { s6 with level := s6.level - 1 })
      else if 0 < s4.level then
        (⟨false, false, startingLevel, s4.level - 1, valksType, false, false, false, 0, 0, false,
            PathName.emptyName⟩,
          { s4 with level := s4.level - 1 })
      else
        (⟨false, false, startingLevel, s4.level, valksType, false, false, false, 0, 0, false,
            PathName.emptyName⟩,
          s4)

/-- The dispatch body of `step()` after its completeness check: Hepta
path, then Okta path, then the normal attempt. -/
def stepGo (cfg : SimulationConfig) (ext : ℕ → ℚ) (s : EngineState) : StepResult × EngineState :=
  if shouldUseHepta cfg s then performHeptaOktaStep cfg ext false s
  else if shouldUseOkta cfg s then performHeptaOktaStep cfg ext true s
  else performEnhancementStep cfg ext s

/-- Error raised by the engine (`throw new Error(...)`). -/
inductive EngineError where
  | simulationAlreadyComplete
  deriving DecidableEq

/-- `step()`: performing a step on an already-complete engine raises. -/
def step (cfg : SimulationConfig) (ext : ℕ → ℚ) (s : EngineState) :
    Except EngineError (StepResult × EngineState) :=
  if isComplete cfg s then Except.error EngineError.simulationAlreadyComplete
  else Except.ok (stepGo cfg ext s)

/-! ## Batch runner, recording variant (`runFullSimulation`) -/

/-- The totals read off the engine state when `runFullSimulation`
returns (steps are filled in by the loop). -/
def resultOfState (s : EngineState) (record : Bool) : SimulationResult where
  crystals := s.crystals
  scrolls := s.scrolls
  silver := s.silver
  exquisiteCrystals := s.exquisiteCrystals
  attempts := s.attempts
  finalLevel := s.level
  anvilEnergy := s.anvilEnergy
  valks10Used := s.valks10Used
  valks50Used := s.valks50Used
  valks100Used := s.valks100Used
  steps := if record then some [] else none

/-- The `while (!isComplete) step()` loop of `runFullSimulation`,
fuel-indexed.  `none` means the loop did not finish within `fuel`
iterations.  When recording, each attempt's outcome is prepended in
order. -/
def runFullAux (cfg : SimulationConfig) (ext : ℕ → ℚ) (record : Bool) :
    ℕ → EngineState → Option SimulationResult
  | 0, _ => none
  | fuel + 1, s =>
      if isComplete cfg s then some (resultOfState s record)
      else
        match step cfg ext s with
        | Except.error _ => none
        | Except.ok (st, s2) =>
            (runFullAux cfg ext record fuel s2).map fun r =>
              { r with steps := r.steps.map fun l => st :: l }

/-- `runFullSimulation`: run a fresh engine to completion, optionally
recording every step. -/
def runFullSimulation (cfg : SimulationConfig) (seed : Option ℕ) (ext : ℕ → ℚ)
    (record : Bool) (fuel : ℕ) : Option SimulationResult :=
  runFullAux cfg ext record fuel (mkEngine cfg seed)

/-! ## Batch runner, fast variant (`runFast`) -/

/-- The local accumulators of `runFast` start at zero (and the local
path pity counters start at zero), while level, anvil energy, sub-path
progress and the generator are taken from the engine. -/
def fastInit (s : EngineState) : EngineState :=
  { s with
    crystals := 0, scrolls := 0, silver := 0, exquisiteCrystals := 0
    valks10Used := 0, valks50Used := 0, valks100Used := 0
    heptaPity := 0, oktaPity := 0 }

/-- The 7 scalar totals read off the loop state. -/
def fastTotalsOfState (s : EngineState) : FastTotals :=
  ⟨s.crystals, s.scrolls, s.silver, s.exquisiteCrystals, s.valks10Used, s.valks50Used,
    s.valks100Used⟩

/-- Scalar projection of a recorded result onto the fast 7-tuple. -/
def fastTotalsOf (r : SimulationResult) : FastTotals :=
  ⟨r.crystals, r.scrolls, r.silver, r.exquisiteCrystals, r.valks10Used, r.valks50Used,
    r.valks100Used⟩

/-- The Hepta block shared verbatim by the `runFast` and
`runFastWithLimits` loops. -/
def heptaFastBody (cfg : SimulationConfig) (ext : ℕ → ℚ) (s : EngineState) : EngineState :=
  let s1 : EngineState :=
    { s with
      exquisiteCrystals := s.exquisiteCrystals + cfg.gameSettings.heptaOktaCrystalsPerAttempt
      silver := s.silver + exquisiteCostOf cfg * cfg.gameSettings.heptaOktaCrystalsPerAttempt }
  let succeedFrom : EngineState → EngineState := fun s2 =>
    let s3 : EngineState := { s2 with heptaProgress := s2.heptaProgress + 1, heptaPity := 0 }
    if cfg.gameSettings.heptaSubEnhancements ≤ s3.heptaProgress then
      { s3 with level := 8, anvilEnergy := setEnergy s3.anvilEnergy 8 0, heptaProgress := 0 }
    else s3
  if cfg.gameSettings.heptaOktaAnvilPity ≤ s1.heptaPity then succeedFrom s1
  else
    let p := draw ext s1.rng
    let s2 : EngineState := { s1 with rng := p.2 }
    if p.1 < cfg.gameSettings.heptaOktaSuccessRate then succeedFrom s2
    else { s2 with heptaPity := s2.heptaPity + 1 }

/-- The Okta block shared verbatim by the `runFast` and
`runFastWithLimits` loops. -/
def oktaFastBody (cfg : SimulationConfig) (ext : ℕ → ℚ) (s : EngineState) : EngineState :=
  let s1 : EngineState :=
    { s with
      exquisiteCrystals := s.exquisiteCrystals + cfg.gameSettings.heptaOktaCrystalsPerAttempt
      silver := s.silver + exquisiteCostOf cfg * cfg.gameSettings.heptaOktaCrystalsPerAttempt }
  let succeedFrom : EngineState → EngineState := fun s2 =>
    let s3 : EngineState := { s2 with oktaProgress := s2.oktaProgress + 1, oktaPity := 0 }
    if cfg.gameSettings.oktaSubEnhancements ≤ s3.oktaProgress then
      { s3 with level := 9, anvilEnergy := setEnergy s3.anvilEnergy 9 0, oktaProgress := 0 }
    else s3
  if cfg.gameSettings.heptaOktaAnvilPity ≤ s1.oktaPity then succeedFrom s1
  else
    let p := draw ext s1.rng
    let s2 : EngineState := { s1 with rng := p.2 }
    if p.1 < cfg.gameSettings.heptaOktaSuccessRate then succeedFrom s2
    else { s2 with oktaPity := s2.oktaPity + 1 }

/-- The normal-enhancement block of the `runFast` loop (the same valks
priority chain as the engine, then pity check, roll, and downgrade
resolution). -/
def fastNormalBody (cfg : SimulationConfig) (ext : ℕ → ℚ) (s : EngineState) : EngineState :=
  let nextLevel := s.level + 1
  let valksType := valksSelection cfg nextLevel
  let baseRate := effectiveRate cfg nextLevel
  let s1 : EngineState :=
    match valksType with
    | some ValksType.v100 =>
        { s with
          silver := s.silver + cfg.prices.valks100Price, valks100Used := s.valks100Used + 1 }
    | some ValksType.v50 =>
        { s with silver := s.silver + cfg.prices.valks50Price, valks50Used := s.valks50Used + 1 }
    | some ValksType.v10 =>
        { s with silver := s.silver + cfg.prices.valks10Price, valks10Used := s.valks10Used + 1 }
    | none => s
  let s2 : EngineState :=
    { s1 with
      crystals := s1.crystals + 1
      silver := s1.silver + cfg.prices.crystalPrice + cfg.gameSettings.enhancementCostPerAttempt }
  -- Check anvil pity
  let currentEnergy := (s2.anvilEnergy nextLevel).getD 0
  let maxEnergy := (cfg.gameSettings.anvilThresholds nextLevel).getD 999
  let anvilTriggered := maxEnergy ≤ currentEnergy ∧ 0 < maxEnergy
  if anvilTriggered then
    { s2 with level := nextLevel, anvilEnergy := setEnergy s2.anvilEnergy nextLevel 0 }
  else
    let p := draw ext s2.rng
    let s3 : EngineState := { s2 with rng := p.2 }
    if p.1 < baseRate then
      { s3 with level := nextLevel, anvilEnergy := setEnergy s3.anvilEnergy nextLevel 0 }
    else
      let s4 : EngineState :=
        { s3 with anvilEnergy := setEnergy s3.anvilEnergy nextLevel (currentEnergy + 1) }
      if 0 < s4.level ∧ 0 < cfg.restorationFrom ∧ (cfg.restorationFrom : ℤ) ≤ s4.level then
        let s5 : EngineState :=
          { s4 with
            scrolls := s4.scrolls + RESTORATION_PER_ATTEMPT
            silver := s4.silver + restorationAttemptCostOf cfg }
        let q := draw ext s5.rng
        let s6 : EngineState := { s5 with rng := q.2 }
        if RESTORATION_SUCCESS_RATE ≤ q.1 then { s6 with level := s6.level - 1 } else s6
      else if 0 < s4.level then { s4 with level := s4.level - 1 }
      else s4

/-- One iteration of the `runFast` loop body (each source branch ends
in `continue`, so the body is a plain state transformer). -/
def fastIter (cfg : SimulationConfig) (ext : ℕ → ℚ) (s : EngineState) : EngineState :=
  if shouldUseHepta cfg s then heptaFastBody cfg ext s
  else if shouldUseOkta cfg s then oktaFastBody cfg ext s
  else fastNormalBody cfg ext s

/-- The `while (level < targetLevel)` loop of `runFast`. -/
def runFastAux (cfg : SimulationConfig) (ext : ℕ → ℚ) :
    ℕ → EngineState → Option FastTotals
  | 0, _ => none
  | fuel + 1, s =>
      if isComplete cfg s then some (fastTotalsOfState s)
      else runFastAux cfg ext fuel (fastIter cfg ext s)

/-- `runFast`: minimal-tuple simulation on a fresh engine. -/
def runFast (cfg : SimulationConfig) (seed : Option ℕ) (ext : ℕ → ℚ) (fuel : ℕ) :
    Option FastTotals :=
  runFastAux cfg ext fuel (fastInit (mkEngine cfg seed))

/-! ## Batch runner, capped variant (`runFastWithLimits`) -/

/-- `cap !== undefined && cap ≤ used`: a finite cap is already
exhausted (the source writes `used >= cap`). -/
def capBlocks : Option ℕ → ℕ → Prop
  | some m, used => m ≤ used
  | none, _ => False

instance (c : Option ℕ) (u : ℕ) : Decidable (capBlocks c u) := by
  cases c <;> unfold capBlocks <;> infer_instance

/-- `cap !== undefined && wanted > cap`: spending up to `wanted` would
exceed a finite cap. -/
def capExceededBy : Option ℕ → ℕ → Prop
  | some m, wanted => m < wanted
  | none, _ => False

instance (c : Option ℕ) (w : ℕ) : Decidable (capExceededBy c w) := by
  cases c <;> unfold capExceededBy <;> infer_instance

/-- The cap-aware effective rate of the `runFastWithLimits` valks
priority chain: the 100% buff's rate when that buff is eligible and
not capped out, falling back to 50%, then 10%, then the plain rate. -/
def limitsBaseRate (cfg : SimulationConfig) (limits : ResourceLimits) (s : EngineState) : ℚ :=
  let nextLevel := s.level + 1
  if (0 < cfg.valks100From ∧ (cfg.valks100From : ℤ) ≤ nextLevel) ∧
      ¬capBlocks limits.valks100 s.valks100Used then
    (rateCacheValks100 cfg nextLevel).getD (mkRat 1 100)
  else if (0 < cfg.valks50From ∧ (cfg.valks50From : ℤ) ≤ nextLevel) ∧
      ¬capBlocks limits.valks50 s.valks50Used then
    (rateCacheValks50 cfg nextLevel).getD (mkRat 1 100)
  else if (0 < cfg.valks10From ∧ (cfg.valks10From : ℤ) ≤ nextLevel) ∧
      ¬capBlocks limits.valks10 s.valks10Used then
    (rateCacheValks10 cfg nextLevel).getD (mkRat 1 100)
  else (rateCache cfg nextLevel).getD (mkRat 1 100)

/-- The normal-enhancement block of the `runFastWithLimits` loop: the
valks priority chain additionally skips any buff whose cap is
exhausted, and a restoration spend that would exceed the scroll cap is
replaced by a plain downgrade. -/
def limitsNormalBody (cfg : SimulationConfig) (limits : ResourceLimits) (ext : ℕ → ℚ)
    (s : EngineState) : EngineState :=
  let nextLevel := s.level + 1
  -- Determine valks type, also checking the per-valks caps
  let canUseValks100 := (0 < cfg.valks100From ∧ (cfg.valks100From : ℤ) ≤ nextLevel) ∧
    ¬capBlocks limits.valks100 s.valks100Used
  let canUseValks50 := (0 < cfg.valks50From ∧ (cfg.valks50From : ℤ) ≤ nextLevel) ∧
    ¬capBlocks limits.valks50 s.valks50Used
  let canUseValks10 := (0 < cfg.valks10From ∧ (cfg.valks10From : ℤ) ≤ nextLevel) ∧
    ¬capBlocks limits.valks10 s.valks10Used
  let baseRate : ℚ := limitsBaseRate cfg limits s
  let s1 : EngineState :=
    if canUseValks100 then
      { s with silver := s.silver + cfg.prices.valks100Price, valks100Used := s.valks100Used + 1 }
    else if canUseValks50 then
      { s with silver := s.silver + cfg.prices.valks50Price, valks50Used := s.valks50Used + 1 }
    else if canUseValks10 then
      { s with silver := s.silver + cfg.prices.valks10Price, valks10Used := s.valks10Used + 1 }
    else s
  let s2 : EngineState :=
    { s1 with
      crystals := s1.crystals + 1
      silver := s1.silver + cfg.prices.crystalPrice + cfg.gameSettings.enhancementCostPerAttempt }
  -- Check anvil pity
  let currentEnergy := (s2.anvilEnergy nextLevel).getD 0
  let maxEnergy := (cfg.gameSettings.anvilThresholds nextLevel).getD 999
  let anvilTriggered := maxEnergy ≤ currentEnergy ∧ 0 < maxEnergy
  if anvilTriggered then
    { s2 with level := nextLevel, anvilEnergy := setEnergy s2.anvilEnergy nextLevel 0 }
  else
    let p := draw ext s2.rng
    let s3 : EngineState := { s2 with rng := p.2 }
    if p.1 < baseRate then
      { s3 with level := nextLevel, anvilEnergy := setEnergy s3.anvilEnergy nextLevel 0 }
    else
      let s4 : EngineState :=
        { s3 with anvilEnergy := setEnergy s3.anvilEnergy nextLevel (currentEnergy + 1) }
      if 0 < s4.level ∧ 0 < cfg.restorationFrom ∧ (cfg.restorationFrom : ℤ) ≤ s4.level then
        -- Check scroll limit before using restoration
        if capExceededBy limits.scrolls (s4.scrolls + RESTORATION_PER_ATTEMPT) then
          -- Can't use restoration, must downgrade
          { s4 with level := s4.level - 1 }
        else
          let s5 : EngineState :=
            { s4 with
              scrolls := s4.scrolls + RESTORATION_PER_ATTEMPT
              silver := s4.silver + restorationAttemptCostOf cfg }
          let q := draw ext s5.rng
          let s6 : EngineState := { s5 with rng := q.2 }
          if RESTORATION_SUCCESS_RATE ≤ q.1 then { s6 with level := s6.level - 1 } else s6
      else if 0 < s4.level then { s4 with level := s4.level - 1 }
      else s4

/-- One iteration of the `runFastWithLimits` loop body.  `none` is the
early `return` taken when the crystal cap blocks the next normal
attempt; otherwise the next loop state is produced. -/
def limitsIter (cfg : SimulationConfig) (limits : ResourceLimits) (ext : ℕ → ℚ)
    (s : EngineState) : Option EngineState :=
  if shouldUseHepta cfg s then some (heptaFastBody cfg ext s)
  else if shouldUseOkta cfg s then some (oktaFastBody cfg ext s)
  -- Check crystal limit before attempting
  else if capBlocks limits.crystals s.crystals then none
  else some (limitsNormalBody cfg limits ext s)

/-- The capped totals read off the loop state with the given success
flag. -/
def limitTotalsOfState (s : EngineState) (success : ℕ) : LimitTotals :=
  ⟨s.crystals, s.scrolls, s.silver, s.exquisiteCrystals, s.valks10Used, s.valks50Used,
    s.valks100Used, success⟩

/-- The `while (level < targetLevel)` loop of `runFastWithLimits`: the
early `return` reports the partial totals with success flag 0. -/
def runLimitsAux (cfg : SimulationConfig) (limits : ResourceLimits) (ext : ℕ → ℚ) :
    ℕ → EngineState → Option LimitTotals
  | 0, _ => none
  | fuel + 1, s =>
      if isComplete cfg s then some (limitTotalsOfState s 1)
      else
        match limitsIter cfg limits ext s with
        | none => some (limitTotalsOfState s 0)
        | some s2 => runLimitsAux cfg limits ext fuel s2

/-- `runFastWithLimits`: capped simulation on a fresh engine. -/
def runFastWithLimits (cfg : SimulationConfig) (limits : ResourceLimits) (seed : Option ℕ)
    (ext : ℕ → ℚ) (fuel : ℕ) : Option LimitTotals :=
  runLimitsAux cfg limits ext fuel (fastInit (mkEngine cfg seed))

/-! ## Attempt step relation and reachability -/

/-- One resolved attempt of the engine: only legal when the run is not
yet complete (otherwise `step` raises), with an arbitrary entropy
stream feeding the generator. -/
def EngineStep (cfg : SimulationConfig) (s s2 : EngineState) : Prop :=
  ¬isComplete cfg s ∧ ∃ ext, s2 = (stepGo cfg ext s).2

/-- All states an engine can reach from a given state by resolving
attempts. -/
def ReachableFrom (cfg : SimulationConfig) : EngineState → EngineState → Prop :=
  Relation.ReflTransGen (EngineStep cfg)

/-! ## Monte Carlo aggregation (from the strategy worker) -/

/-- JS array indexing `arr[i] ?? 0`: out-of-range (negative included)
reads produce the fallback 0. -/
def jsIndex (l : List ℚ) (i : ℤ) : ℚ :=
  if i < 0 then 0 else l.getD i.toNat 0

/-- `percentile(sorted, p)` from the aggregator:
`sorted[Math.min(Math.floor(sorted.length * p), sorted.length - 1)] ?? 0`. -/
def percentile (sorted : List ℚ) (p : ℚ) : ℚ :=
  jsIndex sorted (min ⌊(sorted.length : ℚ) * p⌋ ((sorted.length : ℤ) - 1))

/-- `average(arr)`: the arithmetic mean, 0 for an empty batch. -/
def average (arr : List ℚ) : ℚ :=
  if 0 < arr.length then arr.sum / (arr.length : ℚ) else 0

/-- The aggregator's `worst` value: `sorted[sorted.length - 1] ?? 0`. -/
def worstOf (sorted : List ℚ) : ℚ :=
  jsIndex sorted ((sorted.length : ℤ) - 1)

/-- Attach a success flag to the fast 7-tuple. -/
def withSuccess (t : FastTotals) (success : ℕ) : LimitTotals :=
  ⟨t.crystals, t.scrolls, t.silver, t.exquisiteCrystals, t.valks10Used, t.valks50Used,
    t.valks100Used, success⟩

/-! ## Concrete test fixtures -/

/-- A small concrete settings table for concrete runs: tier 1 enhances
at 70%, tier 2 at 50%, no other tiers in the table, pity threshold 3
everywhere, default sub-path parameters. -/
def gsA : GameSettings where
  enhancementRates := fun l =>
    if l = 1 then some (mkRat 7 10) else if l = 2 then some (mkRat 1 2) else none
  anvilThresholds := fun _ => some 3
  heptaSubEnhancements := 5
  oktaSubEnhancements := 10
  heptaOktaSuccessRate := mkRat 6 100
  heptaOktaAnvilPity := 17
  heptaOktaCrystalsPerAttempt := 15
  exquisiteRecipe := ⟨1050, 2, 30⟩
  enhancementCostPerAttempt := 0

/-- Concrete configuration: enhance from tier 1 to tier 2, restoration
active from tier 1, no buffs, all prices zero. -/
def cfgA : SimulationConfig where
  startLevel := 1
  targetLevel := 2
  restorationFrom := 1
  useHepta := false
  useOkta := false
  startHepta := 0
  startOkta := 0
  valks10From := 0
  valks50From := 0
  valks100From := 0
  prices := ⟨0, 0, 0, 0, 0⟩
  gameSettings := gsA

/-- Concrete entropy stream: the first draw is 9/10 (a failing roll),
every later draw is 1/10. -/
def extA : ℕ → ℚ := fun i => if i = 0 then mkRat 9 10 else mkRat 1 10

/-- `cfgA` with start tier at or above the target tier (a
precondition violation per the spec). -/
def cfgBad : SimulationConfig :=
  { cfgA with startLevel := 5, targetLevel := 3 }

/-- `cfgA` with the 100% buff active from tier 1 on. -/
def cfgV : SimulationConfig :=
  { cfgA with valks100From := 1 }

/-- A concrete engine state at tier 1 whose pity energy for tier 2 has
reached the threshold 3. -/
def sPity : EngineState :=
  { mkEngine cfgA none with anvilEnergy := fun l => if l = 2 then some 3 else none }

/-- A concrete engine state at tier 7 with Hepta progress 4 and Hepta
pity at the sub-path pity threshold: the next sub-attempt is a
guaranteed success that completes the path. -/
def sHepta : EngineState :=
  { mkEngine { cfgA with useHepta := true, startLevel := 7, targetLevel := 9 } none with
    heptaProgress := 4, heptaPity := 17 }

/-- Resource limits with only the scroll cap set, at zero. -/
def scrollCapZero : ResourceLimits := ⟨none, some 0, none, none, none⟩

/-- Resource limits with only the crystal cap set, at zero. -/
def crystalCapZero : ResourceLimits := ⟨some 0, none, none, none, none⟩

/-! ## Determinism: a seeded engine never consults ambient entropy -/

theorem draw_ext_irrel (ext1 ext2 : ℕ → ℚ) (r : RngState) (h : r.isSeeded) :
    draw ext1 r = draw ext2 r := by
  cases r
  · rfl
  · exact absurd h (by simp [RngState.isSeeded])

theorem performHeptaOktaStep_ext (cfg : SimulationConfig) (ext1 ext2 : ℕ → ℚ) (isOkta : Bool)
    (s : EngineState) (h : s.rng.isSeeded) :
    performHeptaOktaStep cfg ext1 isOkta s = performHeptaOktaStep cfg ext2 isOkta s := by
  rcases hr : s.rng with n | i
  · simp [performHeptaOktaStep, draw, hr]
  · rw [hr] at h; exact absurd h (by simp [RngState.isSeeded])

theorem performHeptaOktaStep_rng (cfg : SimulationConfig) (ext : ℕ → ℚ) (isOkta : Bool)
    (s : EngineState) (h : s.rng.isSeeded) :
    ((performHeptaOktaStep cfg ext isOkta s).2).rng.isSeeded := by
  rcases hr : s.rng with n | i
  · simp only [performHeptaOktaStep, draw, hr]
    repeat' split
    all_goals simp [RngState.isSeeded, hr]
  · rw [hr] at h; exact absurd h (by simp [RngState.isSeeded])

theorem performEnhancementStep_ext (cfg : SimulationConfig) (ext1 ext2 : ℕ → ℚ)
    (s : EngineState) (h : s.rng.isSeeded) :
    performEnhancementStep cfg ext1 s = performEnhancementStep cfg ext2 s := by
  rcases hr : s.rng with n | i
  · rcases hv : valksSelection cfg (s.level + 1) with _ | vt
    · simp [performEnhancementStep, draw, hr, hv]
    · cases vt <;> simp [performEnhancementStep, draw, hr, hv]
  · rw [hr] at h; exact absurd h (by simp [RngState.isSeeded])

theorem performEnhancementStep_rng (cfg : SimulationConfig) (ext : ℕ → ℚ)
    (s : EngineState) (h : s.rng.isSeeded) :
    ((performEnhancementStep cfg ext s).2).rng.isSeeded := by
  rcases hr : s.rng with n | i
  · rcases hv : valksSelection cfg (s.level + 1) with _ | vt
    · simp only [performEnhancementStep, draw, hr, hv]
      repeat' split
      all_goals simp [RngState.isSeeded, hr]
    · cases vt <;>
        · simp only [performEnhancementStep, draw, hr, hv]
          repeat' split
          all_goals simp [RngState.isSeeded, hr]
  · rw [hr] at h; exact absurd h (by simp [RngState.isSeeded])

theorem stepGo_ext (cfg : SimulationConfig) (ext1 ext2 : ℕ → ℚ) (s : EngineState)
    (h : s.rng.isSeeded) : stepGo cfg ext1 s = stepGo cfg ext2 s := by
  unfold stepGo
  by_cases hH : shouldUseHepta cfg s
  · simpa [hH] using performHeptaOktaStep_ext cfg ext1 ext2 false s h
  · by_cases hO : shouldUseOkta cfg s
    · simpa [hH, hO] using performHeptaOktaStep_ext cfg ext1 ext2 true s h
    · simpa [hH, hO] using performEnhancementStep_ext cfg ext1 ext2 s h

theorem stepGo_rng (cfg : SimulationConfig) (ext : ℕ → ℚ) (s : EngineState)
    (h : s.rng.isSeeded) : ((stepGo cfg ext s).2).rng.isSeeded := by
  unfold stepGo
  by_cases hH : shouldUseHepta cfg s
  · simpa [hH] using performHeptaOktaStep_rng cfg ext false s h
  · by_cases hO : shouldUseOkta cfg s
    · simpa [hH, hO] using performHeptaOktaStep_rng cfg ext true s h
    · simpa [hH, hO] using performEnhancementStep_rng cfg ext s h

theorem runFullAux_ext (cfg : SimulationConfig) (record : Bool) (ext1 ext2 : ℕ → ℚ) :
    ∀ (fuel : ℕ) (s : EngineState), s.rng.isSeeded →
      runFullAux cfg ext1 record fuel s = runFullAux cfg ext2 record fuel s := by
  intro fuel
  induction fuel with
  | zero => intro s _; rfl
  | succ fuel ih =>
      intro s h
      unfold runFullAux
      by_cases hc : isComplete cfg s
      · simp [hc]
      · simp only [hc, if_false, step, if_neg hc]
        rw [stepGo_ext cfg ext1 ext2 s h, ih _ (stepGo_rng cfg ext2 s h)]

theorem heptaFastBody_ext (cfg : SimulationConfig) (ext1 ext2 : ℕ → ℚ) (s : EngineState)
    (h : s.rng.isSeeded) : heptaFastBody cfg ext1 s = heptaFastBody cfg ext2 s := by
  rcases hr : s.rng with n | i
  · simp [heptaFastBody, draw, hr]
  · rw [hr] at h; exact absurd h (by simp [RngState.isSeeded])

theorem heptaFastBody_rng (cfg : SimulationConfig) (ext : ℕ → ℚ) (s : EngineState)
    (h : s.rng.isSeeded) : (heptaFastBody cfg ext s).rng.isSeeded := by
  rcases hr : s.rng with n | i
  · simp only [heptaFastBody, draw, hr]
    repeat' split
    all_goals simp [RngState.isSeeded, hr]
  · rw [hr] at h; exact absurd h (by simp [RngState.isSeeded])

theorem oktaFastBody_ext (cfg : SimulationConfig) (ext1 ext2 : ℕ → ℚ) (s : EngineState)
    (h : s.rng.isSeeded) : oktaFastBody cfg ext1 s = oktaFastBody cfg ext2 s := by
  rcases hr : s.rng with n | i
  · simp [oktaFastBody, draw, hr]
  · rw [hr] at h; exact absurd h (by simp [RngState.isSeeded])

theorem oktaFastBody_rng (cfg : SimulationConfig) (ext : ℕ → ℚ) (s : EngineState)
    (h : s.rng.isSeeded) : (oktaFastBody cfg ext s).rng.isSeeded := by
  rcases hr : s.rng with n | i
  · simp only [oktaFastBody, draw, hr]
    repeat' split
    all_goals simp [RngState.isSeeded, hr]
  · rw [hr] at h; exact absurd h (by simp [RngState.isSeeded])

theorem fastNormalBody_ext (cfg : SimulationConfig) (ext1 ext2 : ℕ → ℚ) (s : EngineState)
    (h : s.rng.isSeeded) : fastNormalBody cfg ext1 s = fastNormalBody cfg ext2 s := by
  rcases hr : s.rng with n | i
  · rcases hv : valksSelection cfg (s.level + 1) with _ | vt
    · simp [fastNormalBody, draw, hr, hv]
    · cases vt <;> simp [fastNormalBody, draw, hr, hv]
  · rw [hr] at h; exact absurd h (by simp [RngState.isSeeded])

theorem fastNormalBody_rng (cfg : SimulationConfig) (ext : ℕ → ℚ) (s : EngineState)
    (h : s.rng.isSeeded) : (fastNormalBody cfg ext s).rng.isSeeded := by
  rcases hr : s.rng with n | i
  · rcases hv : valksSelection cfg (s.level + 1) with _ | vt
    · simp only [fastNormalBody, draw, hr, hv]
      repeat' split
      all_goals simp [RngState.isSeeded, hr]
    · cases vt <;>
        · simp only [fastNormalBody, draw, hr, hv]
          repeat' split
          all_goals simp [RngState.isSeeded, hr]
  · rw [hr] at h; exact absurd h (by simp [RngState.isSeeded])

theorem limitsNormalBody_ext (cfg : SimulationConfig) (limits : ResourceLimits)
    (ext1 ext2 : ℕ → ℚ) (s : EngineState) (h : s.rng.isSeeded) :
    limitsNormalBody cfg limits ext1 s = limitsNormalBody cfg limits ext2 s := by
  rcases hr : s.rng with n | i
  · by_cases h100 : (0 < cfg.valks100From ∧ (cfg.valks100From : ℤ) ≤ s.level + 1) ∧
        ¬capBlocks limits.valks100 s.valks100Used <;>
      by_cases h50 : (0 < cfg.valks50From ∧ (cfg.valks50From : ℤ) ≤ s.level + 1) ∧
        ¬capBlocks limits.valks50 s.valks50Used <;>
      by_cases h10 : (0 < cfg.valks10From ∧ (cfg.valks10From : ℤ) ≤ s.level + 1) ∧
        ¬capBlocks limits.valks10 s.valks10Used <;>
      simp [limitsNormalBody, draw, hr, h100, h50, h10]
  · rw [hr] at h; exact absurd h (by simp [RngState.isSeeded])

theorem rng_dite_push (c : Prop) [Decidable c] (a b : EngineState) :
    (if c then a else b).rng = if c then a.rng else b.rng := by
  split <;> rfl

theorem isSeeded_ite_push (c : Prop) [Decidable c] (a b : RngState) :
    (if c then a else b).isSeeded ↔ if c then a.isSeeded else b.isSeeded := by
  split <;> exact Iff.rfl

theorem isSeeded_seeded (n : ℕ) : (RngState.seeded n).isSeeded := trivial

theorem scrolls_ite_push (c : Prop) [Decidable c] (a b : EngineState) :
    (if c then a else b).scrolls = if c then a.scrolls else b.scrolls := by
  split <;> rfl

theorem limitsNormalBody_rng (cfg : SimulationConfig) (limits : ResourceLimits) (ext : ℕ → ℚ)
    (s : EngineState) (h : s.rng.isSeeded) : (limitsNormalBody cfg limits ext s).rng.isSeeded := by
  rcases hr : s.rng with n | i
  · by_cases h100 : (0 < cfg.valks100From ∧ (cfg.valks100From : ℤ) ≤ s.level + 1) ∧
        ¬capBlocks limits.valks100 s.valks100Used <;>
      by_cases h50 : (0 < cfg.valks50From ∧ (cfg.valks50From : ℤ) ≤ s.level + 1) ∧
        ¬capBlocks limits.valks50 s.valks50Used <;>
      by_cases h10 : (0 < cfg.valks10From ∧ (cfg.valks10From : ℤ) ≤ s.level + 1) ∧
        ¬capBlocks limits.valks10 s.valks10Used <;>
      simp [limitsNormalBody, draw, hr, h100, h50, h10, rng_dite_push, isSeeded_ite_push,
        isSeeded_seeded]
  · rw [hr] at h; exact absurd h (by simp [RngState.isSeeded])

theorem fastIter_ext (cfg : SimulationConfig) (ext1 ext2 : ℕ → ℚ) (s : EngineState)
    (h : s.rng.isSeeded) : fastIter cfg ext1 s = fastIter cfg ext2 s := by
  unfold fastIter
  by_cases hH : shouldUseHepta cfg s
  · simpa [hH] using heptaFastBody_ext cfg ext1 ext2 s h
  · by_cases hO : shouldUseOkta cfg s
    · simpa [hH, hO] using oktaFastBody_ext cfg ext1 ext2 s h
    · simpa [hH, hO] using fastNormalBody_ext cfg ext1 ext2 s h

theorem fastIter_rng (cfg : SimulationConfig) (ext : ℕ → ℚ) (s : EngineState)
    (h : s.rng.isSeeded) : (fastIter cfg ext s).rng.isSeeded := by
  unfold fastIter
  by_cases hH : shouldUseHepta cfg s
  · simpa [hH] using heptaFastBody_rng cfg ext s h
  · by_cases hO : shouldUseOkta cfg s
    · simpa [hH, hO] using oktaFastBody_rng cfg ext s h
    · simpa [hH, hO] using fastNormalBody_rng cfg ext s h

theorem runFastAux_ext (cfg : SimulationConfig) (ext1 ext2 : ℕ → ℚ) :
    ∀ (fuel : ℕ) (s : EngineState), s.rng.isSeeded →
      runFastAux cfg ext1 fuel s = runFastAux cfg ext2 fuel s := by
  intro fuel
  induction fuel with
  | zero => intro s _; rfl
  | succ fuel ih =>
      intro s h
      unfold runFastAux
      by_cases hc : isComplete cfg s
      · simp [hc]
      · simp only [hc, if_false, if_neg hc]
        rw [fastIter_ext cfg ext1 ext2 s h, ih _ (fastIter_rng cfg ext2 s h)]

theorem limitsIter_ext (cfg : SimulationConfig) (limits : ResourceLimits) (ext1 ext2 : ℕ → ℚ)
    (s : EngineState) (h : s.rng.isSeeded) :
    limitsIter cfg limits ext1 s = limitsIter cfg limits ext2 s := by
  unfold limitsIter
  by_cases hH : shouldUseHepta cfg s
  · simpa [hH] using congrArg some (heptaFastBody_ext cfg ext1 ext2 s h)
  · by_cases hO : shouldUseOkta cfg s
    · simpa [hH, hO] using congrArg some (oktaFastBody_ext cfg ext1 ext2 s h)
    · by_cases hC : capBlocks limits.crystals s.crystals
      · simp [hH, hO, hC]
      · simpa [hH, hO, hC] using
          congrArg some (limitsNormalBody_ext cfg limits ext1 ext2 s h)

theorem limitsIter_rng (cfg : SimulationConfig) (limits : ResourceLimits) (ext : ℕ → ℚ)
    (s s2 : EngineState) (h : s.rng.isSeeded)
    (h2 : limitsIter cfg limits ext s = some s2) : s2.rng.isSeeded := by
  unfold limitsIter at h2
  by_cases hH : shouldUseHepta cfg s
  · rw [if_pos hH, Option.some_inj] at h2
    exact h2 ▸ heptaFastBody_rng cfg ext s h
  · rw [if_neg hH] at h2
    by_cases hO : shouldUseOkta cfg s
    · rw [if_pos hO, Option.some_inj] at h2
      exact h2 ▸ oktaFastBody_rng cfg ext s h
    · rw [if_neg hO] at h2
      by_cases hC : capBlocks limits.crystals s.crystals
      · rw [if_pos hC] at h2; exact absurd h2 (by simp)
      · rw [if_neg hC, Option.some_inj] at h2
        exact h2 ▸ limitsNormalBody_rng cfg limits ext s h

theorem runLimitsAux_ext (cfg : SimulationConfig) (limits : ResourceLimits) (ext1 ext2 : ℕ → ℚ) :
    ∀ (fuel : ℕ) (s : EngineState), s.rng.isSeeded →
      runLimitsAux cfg limits ext1 fuel s = runLimitsAux cfg limits ext2 fuel s := by
  intro fuel
  induction fuel with
  | zero => intro s _; rfl
  | succ fuel ih =>
      intro s h
      unfold runLimitsAux
      by_cases hc : isComplete cfg s
      · simp [hc]
      · simp only [hc, if_false, if_neg hc]
        rw [limitsIter_ext cfg limits ext1 ext2 s h]
        rcases h2 : limitsIter cfg limits ext2 s with _ | s2
        · rfl
        · exact ih s2 (limitsIter_rng cfg limits ext2 s s2 h h2)

/-- A fresh engine with a provided seed starts with the seeded generator. -/
theorem mkEngine_rng_isSeeded (cfg : SimulationConfig) (n : ℕ) :
    (mkEngine cfg (some n)).rng.isSeeded := by
  simp [mkEngine, RngState.isSeeded]

/-- C1.  For every configuration and fixed 32-bit seed, each batch
runner variant on a fresh engine is a pure function of (configuration,
seed): its run totals do not depend on the ambient entropy stream that
models `Math.random`, so repeated invocations yield identical totals,
field for field. -/
theorem totals_pure_function_of_config_and_seed (cfg : SimulationConfig) (n : ℕ)
    (ext1 ext2 : ℕ → ℚ) (record : Bool) (limits : ResourceLimits) (fuel : ℕ) :
    runFullSimulation cfg (some n) ext1 record fuel =
        runFullSimulation cfg (some n) ext2 record fuel ∧
      runFast cfg (some n) ext1 fuel = runFast cfg (some n) ext2 fuel ∧
      runFastWithLimits cfg limits (some n) ext1 fuel =
        runFastWithLimits cfg limits (some n) ext2 fuel := by
  refine ⟨?_, ?_, ?_⟩
  · exact runFullAux_ext cfg record ext1 ext2 fuel _ (mkEngine_rng_isSeeded cfg n)
  · exact runFastAux_ext cfg ext1 ext2 fuel _ (mkEngine_rng_isSeeded cfg n)
  · exact runLimitsAux_ext cfg limits ext1 ext2 fuel _ (mkEngine_rng_isSeeded cfg n)

/-! ## Normal-path pity mechanics -/

theorem enh_step_pity_success (cfg : SimulationConfig) (ext : ℕ → ℚ) (s : EngineState)
    (h1 : 0 < (cfg.gameSettings.anvilThresholds (s.level + 1)).getD 999)
    (h2 : (cfg.gameSettings.anvilThresholds (s.level + 1)).getD 999 ≤
      (s.anvilEnergy (s.level + 1)).getD 0) :
    (performEnhancementStep cfg ext s).1.success = true ∧
      (performEnhancementStep cfg ext s).1.anvilTriggered = true ∧
      (performEnhancementStep cfg ext s).2.rng = s.rng := by
  rcases hv : valksSelection cfg (s.level + 1) with _ | vt
  · simp only [performEnhancementStep, hv]
    rw [if_pos ⟨h2, h1⟩]
    simp
  · cases vt <;>
      · simp only [performEnhancementStep, hv]
        rw [if_pos ⟨h2, h1⟩]
        simp

theorem enh_step_thr_zero (cfg : SimulationConfig) (ext : ℕ → ℚ) (s : EngineState)
    (h0 : (cfg.gameSettings.anvilThresholds (s.level + 1)).getD 999 = 0) :
    (performEnhancementStep cfg ext s).1.anvilTriggered = false := by
  have hA : ¬((cfg.gameSettings.anvilThresholds (s.level + 1)).getD 999 ≤
      (s.anvilEnergy (s.level + 1)).getD 0 ∧
        0 < (cfg.gameSettings.anvilThresholds (s.level + 1)).getD 999) := by omega
  rcases hv : valksSelection cfg (s.level + 1) with _ | vt
  · simp only [performEnhancementStep, hv]
    rw [if_neg hA]
    repeat' split
    all_goals simp
  · cases vt <;>
      · simp only [performEnhancementStep, hv]
        rw [if_neg hA]
        repeat' split
        all_goals simp

theorem enh_step_success_energy (cfg : SimulationConfig) (ext : ℕ → ℚ) (s : EngineState)
    (hs : (performEnhancementStep cfg ext s).1.success = true) :
    (performEnhancementStep cfg ext s).2.anvilEnergy (s.level + 1) = some 0 := by
  rcases hv : valksSelection cfg (s.level + 1) with _ | vt
  · revert hs
    simp only [performEnhancementStep, hv]
    repeat' split
    all_goals intro hs
    all_goals simp_all [setEnergy]
  · cases vt <;>
      · revert hs
        simp only [performEnhancementStep, hv]
        repeat' split
        all_goals intro hs
        all_goals simp_all [setEnergy]

theorem enh_step_failure_energy (cfg : SimulationConfig) (ext : ℕ → ℚ) (s : EngineState)
    (hs : (performEnhancementStep cfg ext s).1.success = false) :
    (performEnhancementStep cfg ext s).2.anvilEnergy (s.level + 1) =
      some ((s.anvilEnergy (s.level + 1)).getD 0 + 1) := by
  rcases hv : valksSelection cfg (s.level + 1) with _ | vt
  · revert hs
    simp only [performEnhancementStep, hv]
    repeat' split
    all_goals intro hs
    all_goals simp_all [setEnergy]
  · cases vt <;>
      · revert hs
        simp only [performEnhancementStep, hv]
        repeat' split
        all_goals intro hs
        all_goals simp_all [setEnergy]

/-- C4.  For a normal-path attempt toward tier `L+1`: when the pity
threshold for `L+1` is positive and the accumulated pity energy is at
or above it, the attempt succeeds with no roll consumed (regardless of
the roll); a threshold of 0 never triggers pity; a success resets the
pity energy for `L+1` to exactly 0; a failure increments it by exactly
one. -/
theorem pity_trigger_reset_increment (cfg : SimulationConfig) (ext : ℕ → ℚ) (s : EngineState) :
    (0 < (cfg.gameSettings.anvilThresholds (s.level + 1)).getD 999 →
      (cfg.gameSettings.anvilThresholds (s.level + 1)).getD 999 ≤
        (s.anvilEnergy (s.level + 1)).getD 0 →
      (performEnhancementStep cfg ext s).1.success = true ∧
        (performEnhancementStep cfg ext s).1.anvilTriggered = true ∧
        (performEnhancementStep cfg ext s).2.rng = s.rng) ∧
    ((cfg.gameSettings.anvilThresholds (s.level + 1)).getD 999 = 0 →
      (performEnhancementStep cfg ext s).1.anvilTriggered = false) ∧
    ((performEnhancementStep cfg ext s).1.success = true →
      (performEnhancementStep cfg ext s).2.anvilEnergy (s.level + 1) = some 0) ∧
    ((performEnhancementStep cfg ext s).1.success = false →
      (performEnhancementStep cfg ext s).2.anvilEnergy (s.level + 1) =
        some ((s.anvilEnergy (s.level + 1)).getD 0 + 1)) :=
  ⟨fun h1 h2 => enh_step_pity_success cfg ext s h1 h2,
    fun h0 => enh_step_thr_zero cfg ext s h0,
    fun hs => enh_step_success_energy cfg ext s hs,
    fun hs => enh_step_failure_energy cfg ext s hs⟩

/-! ## Normal-path failure and downgrade-prevention resolution -/

theorem enh_step_fail_level_zero (cfg : SimulationConfig) (ext : ℕ → ℚ) (s : EngineState)
    (hA : ¬((cfg.gameSettings.anvilThresholds (s.level + 1)).getD 999 ≤
      (s.anvilEnergy (s.level + 1)).getD 0 ∧
        0 < (cfg.gameSettings.anvilThresholds (s.level + 1)).getD 999))
    (hfail : ¬((draw ext s.rng).1 < effectiveRate cfg (s.level + 1)))
    (hL : s.level = 0) :
    (performEnhancementStep cfg ext s).1.success = false ∧
      (performEnhancementStep cfg ext s).1.restorationAttempted = false ∧
      (performEnhancementStep cfg ext s).2.level = s.level := by
  have hcond : ¬(0 < s.level ∧ 0 < cfg.restorationFrom ∧ (cfg.restorationFrom : ℤ) ≤ s.level) := by
    rw [hL]; rintro ⟨h, -⟩; exact absurd h (by norm_num)
  have hpos : ¬0 < s.level := by rw [hL]; norm_num
  rcases hv : valksSelection cfg (s.level + 1) with _ | vt
  · simp only [performEnhancementStep, hv]
    rw [if_neg hA, if_neg hfail, if_neg hcond, if_neg hpos]
    simp
  · cases vt <;>
      · simp only [performEnhancementStep, hv]
        rw [if_neg hA, if_neg hfail, if_neg hcond, if_neg hpos]
        simp

theorem enh_step_fail_restoration (cfg : SimulationConfig) (ext : ℕ → ℚ) (s : EngineState)
    (hA : ¬((cfg.gameSettings.anvilThresholds (s.level + 1)).getD 999 ≤
      (s.anvilEnergy (s.level + 1)).getD 0 ∧
        0 < (cfg.gameSettings.anvilThresholds (s.level + 1)).getD 999))
    (hfail : ¬((draw ext s.rng).1 < effectiveRate cfg (s.level + 1)))
    (hL : 0 < s.level) (hR0 : 0 < cfg.restorationFrom)
    (hRle : (cfg.restorationFrom : ℤ) ≤ s.level) :
    (performEnhancementStep cfg ext s).1.success = false ∧
      (performEnhancementStep cfg ext s).1.restorationAttempted = true ∧
      (performEnhancementStep cfg ext s).2.scrolls = s.scrolls + RESTORATION_PER_ATTEMPT ∧
      ((draw ext (draw ext s.rng).2).1 < RESTORATION_SUCCESS_RATE →
        (performEnhancementStep cfg ext s).1.restorationSuccess = true ∧
          (performEnhancementStep cfg ext s).2.level = s.level) ∧
      (RESTORATION_SUCCESS_RATE ≤ (draw ext (draw ext s.rng).2).1 →
        (performEnhancementStep cfg ext s).1.restorationSuccess = false ∧
          (performEnhancementStep cfg ext s).2.level = s.level - 1) := by
  rcases hv : valksSelection cfg (s.level + 1) with _ | vt
  · simp only [performEnhancementStep, hv]
    rw [if_neg hA, if_neg hfail, if_pos ⟨hL, hR0, hRle⟩]
    by_cases hq : (draw ext (draw ext s.rng).2).1 < RESTORATION_SUCCESS_RATE
    · rw [if_pos hq]
      simp [hq]
    · rw [if_neg hq]
      simp [hq, not_lt.mp hq]
  · cases vt <;>
      · simp only [performEnhancementStep, hv]
        rw [if_neg hA, if_neg hfail, if_pos ⟨hL, hR0, hRle⟩]
        by_cases hq : (draw ext (draw ext s.rng).2).1 < RESTORATION_SUCCESS_RATE
        · rw [if_pos hq]
          simp [hq]
        · rw [if_neg hq]
          simp [hq, not_lt.mp hq]

theorem enh_step_fail_no_restoration (cfg : SimulationConfig) (ext : ℕ → ℚ) (s : EngineState)
    (hA : ¬((cfg.gameSettings.anvilThresholds (s.level + 1)).getD 999 ≤
      (s.anvilEnergy (s.level + 1)).getD 0 ∧
        0 < (cfg.gameSettings.anvilThresholds (s.level + 1)).getD 999))
    (hfail : ¬((draw ext s.rng).1 < effectiveRate cfg (s.level + 1)))
    (hL : 0 < s.level)
    (hNR : ¬(0 < cfg.restorationFrom ∧ (cfg.restorationFrom : ℤ) ≤ s.level)) :
    (performEnhancementStep cfg ext s).1.success = false ∧
      (performEnhancementStep cfg ext s).1.restorationAttempted = false ∧
      (performEnhancementStep cfg ext s).2.level = s.level - 1 := by
  have hcond : ¬(0 < s.level ∧ 0 < cfg.restorationFrom ∧ (cfg.restorationFrom : ℤ) ≤ s.level) := by
    rintro ⟨-, h1, h2⟩; exact hNR ⟨h1, h2⟩
  rcases hv : valksSelection cfg (s.level + 1) with _ | vt
  · simp only [performEnhancementStep, hv]
    rw [if_neg hA, if_neg hfail, if_neg hcond, if_pos hL]
    simp
  · cases vt <;>
      · simp only [performEnhancementStep, hv]
        rw [if_neg hA, if_neg hfail, if_neg hcond, if_pos hL]
        simp

/-- C5 (amended).  On a failed normal-path attempt (pity not triggered,
roll at or above the effective rate): at tier 0 the tier is unchanged
and no prevention is attempted; at a tier above 0 with
downgrade-prevention active (activation tier positive and at most the
current tier) the prevention item is spent and one more uniform value
is drawn — when that draw is BELOW the item's success probability the
item SUCCEEDS and the tier is unchanged, otherwise the item fails and
the tier decrements by one; when prevention is not active the tier
unconditionally decrements. -/
theorem restoration_failure_resolution (cfg : SimulationConfig) (ext : ℕ → ℚ) (s : EngineState)
    (hA : ¬((cfg.gameSettings.anvilThresholds (s.level + 1)).getD 999 ≤
      (s.anvilEnergy (s.level + 1)).getD 0 ∧
        0 < (cfg.gameSettings.anvilThresholds (s.level + 1)).getD 999))
    (hfail : ¬((draw ext s.rng).1 < effectiveRate cfg (s.level + 1))) :
    (s.level = 0 →
      (performEnhancementStep cfg ext s).1.success = false ∧
        (performEnhancementStep cfg ext s).1.restorationAttempted = false ∧
        (performEnhancementStep cfg ext s).2.level = s.level) ∧
    (0 < s.level → 0 < cfg.restorationFrom → (cfg.restorationFrom : ℤ) ≤ s.level →
      (performEnhancementStep cfg ext s).1.success = false ∧
        (performEnhancementStep cfg ext s).1.restorationAttempted = true ∧
        (performEnhancementStep cfg ext s).2.scrolls = s.scrolls + RESTORATION_PER_ATTEMPT ∧
        ((draw ext (draw ext s.rng).2).1 < RESTORATION_SUCCESS_RATE →
          (performEnhancementStep cfg ext s).1.restorationSuccess = true ∧
            (performEnhancementStep cfg ext s).2.level = s.level) ∧
        (RESTORATION_SUCCESS_RATE ≤ (draw ext (draw ext s.rng).2).1 →
          (performEnhancementStep cfg ext s).1.restorationSuccess = false ∧
            (performEnhancementStep cfg ext s).2.level = s.level - 1)) ∧
    (0 < s.level → ¬(0 < cfg.restorationFrom ∧ (cfg.restorationFrom : ℤ) ≤ s.level) →
      (performEnhancementStep cfg ext s).1.success = false ∧
        (performEnhancementStep cfg ext s).1.restorationAttempted = false ∧
        (performEnhancementStep cfg ext s).2.level = s.level - 1) :=
  ⟨fun hL => enh_step_fail_level_zero cfg ext s hA hfail hL,
    fun hL hR0 hRle => enh_step_fail_restoration cfg ext s hA hfail hL hR0 hRle,
    fun hL hNR => enh_step_fail_no_restoration cfg ext s hA hfail hL hNR⟩

/-! ## Sub-path (Hepta/Okta) transitions -/

/-- C6.  A sub-path attempt never downgrades the main tier: the tier
is unchanged unless the attempt completes the path, and completing the
required number of sub-attempts (a success that brings the progress
counter up to the requirement) immediately sets the main tier to the
path target (8 for Hepta, 9 for Okta) and resets that path's progress
and pity to zero. -/
theorem subpath_level_transitions (cfg : SimulationConfig) (ext : ℕ → ℚ) (isOkta : Bool)
    (s : EngineState) :
    ((performHeptaOktaStep cfg ext isOkta s).1.pathComplete = false →
      (performHeptaOktaStep cfg ext isOkta s).2.level = s.level) ∧
    ((performHeptaOktaStep cfg ext isOkta s).1.pathComplete = true →
      (performHeptaOktaStep cfg ext isOkta s).2.level = (if isOkta then 9 else 8) ∧
        (isOkta = true →
          (performHeptaOktaStep cfg ext isOkta s).2.oktaProgress = 0 ∧
            (performHeptaOktaStep cfg ext isOkta s).2.oktaPity = 0) ∧
        (isOkta = false →
          (performHeptaOktaStep cfg ext isOkta s).2.heptaProgress = 0 ∧
            (performHeptaOktaStep cfg ext isOkta s).2.heptaPity = 0)) ∧
    ((performHeptaOktaStep cfg ext isOkta s).1.pathComplete = true ↔
      (performHeptaOktaStep cfg ext isOkta s).1.success = true ∧
        (if isOkta then cfg.gameSettings.oktaSubEnhancements ≤ s.oktaProgress + 1
          else cfg.gameSettings.heptaSubEnhancements ≤ s.heptaProgress + 1)) := by
  cases isOkta
  · by_cases hP : cfg.gameSettings.heptaOktaAnvilPity ≤ s.heptaPity
    · by_cases hC : cfg.gameSettings.heptaSubEnhancements ≤ s.heptaProgress + 1 <;>
        simp [performHeptaOktaStep, hP, hC]
    · by_cases hroll : (draw ext s.rng).1 < cfg.gameSettings.heptaOktaSuccessRate
      · by_cases hC : cfg.gameSettings.heptaSubEnhancements ≤ s.heptaProgress + 1 <;>
          simp [performHeptaOktaStep, hP, hroll, hC]
      · simp [performHeptaOktaStep, hP, hroll]
  · by_cases hP : cfg.gameSettings.heptaOktaAnvilPity ≤ s.oktaPity
    · by_cases hC : cfg.gameSettings.oktaSubEnhancements ≤ s.oktaProgress + 1 <;>
        simp [performHeptaOktaStep, hP, hC]
    · by_cases hroll : (draw ext s.rng).1 < cfg.gameSettings.heptaOktaSuccessRate
      · by_cases hC : cfg.gameSettings.oktaSubEnhancements ≤ s.oktaProgress + 1 <;>
          simp [performHeptaOktaStep, hP, hroll, hC]
      · simp [performHeptaOktaStep, hP, hroll]

/-! ## Valks buff selection -/

theorem enh_step_valks_counts (cfg : SimulationConfig) (ext : ℕ → ℚ) (s : EngineState) :
    (performEnhancementStep cfg ext s).2.valks100Used =
        (s.valks100Used +
          if valksSelection cfg (s.level + 1) = some ValksType.v100 then 1 else 0) ∧
      (performEnhancementStep cfg ext s).2.valks50Used =
        (s.valks50Used +
          if valksSelection cfg (s.level + 1) = some ValksType.v50 then 1 else 0) ∧
      (performEnhancementStep cfg ext s).2.valks10Used =
        (s.valks10Used +
          if valksSelection cfg (s.level + 1) = some ValksType.v10 then 1 else 0) := by
  rcases hv : valksSelection cfg (s.level + 1) with _ | vt
  · simp only [performEnhancementStep, hv]
    repeat' split
    all_goals simp_all
  · cases vt <;>
      · simp only [performEnhancementStep, hv]
        repeat' split
        all_goals simp_all

/-- C10.  Buff selection is priority based: exactly one buff tier per
attempt, the 100% buff when its activation threshold is nonzero and at
most the next tier, otherwise the 50% buff under the same test,
otherwise the 10% buff, otherwise none; a threshold of 0 permanently
disables that buff; the effective success probability is
min(1, base rate x the single selected multiplier); and a normal
attempt increments exactly the selected buff's counter, so eligible
buffs are never stacked. -/
theorem valks_priority_selection (cfg : SimulationConfig) (ext : ℕ → ℚ) (s : EngineState)
    (next : ℤ) (r : ℚ) :
    (valksSelection cfg next = some ValksType.v100 ↔
      0 < cfg.valks100From ∧ (cfg.valks100From : ℤ) ≤ next) ∧
    (valksSelection cfg next = some ValksType.v50 ↔
      ¬(0 < cfg.valks100From ∧ (cfg.valks100From : ℤ) ≤ next) ∧
        (0 < cfg.valks50From ∧ (cfg.valks50From : ℤ) ≤ next)) ∧
    (valksSelection cfg next = some ValksType.v10 ↔
      ¬(0 < cfg.valks100From ∧ (cfg.valks100From : ℤ) ≤ next) ∧
        ¬(0 < cfg.valks50From ∧ (cfg.valks50From : ℤ) ≤ next) ∧
        (0 < cfg.valks10From ∧ (cfg.valks10From : ℤ) ≤ next)) ∧
    (cfg.valks100From = 0 → valksSelection cfg next ≠ some ValksType.v100) ∧
    (cfg.valks50From = 0 → valksSelection cfg next ≠ some ValksType.v50) ∧
    (cfg.valks10From = 0 → valksSelection cfg next ≠ some ValksType.v10) ∧
    (cfg.gameSettings.enhancementRates next = some r →
      effectiveRate cfg next =
        match valksSelection cfg next with
        | none => r
        | some ValksType.v10 => min 1 (r * VALKS_MULTIPLIER_10)
        | some ValksType.v50 => min 1 (r * VALKS_MULTIPLIER_50)
        | some ValksType.v100 => min 1 (r * VALKS_MULTIPLIER_100)) ∧
    ((performEnhancementStep cfg ext s).2.valks100Used =
        (s.valks100Used +
          if valksSelection cfg (s.level + 1) = some ValksType.v100 then 1 else 0) ∧
      (performEnhancementStep cfg ext s).2.valks50Used =
        (s.valks50Used +
          if valksSelection cfg (s.level + 1) = some ValksType.v50 then 1 else 0) ∧
      (performEnhancementStep cfg ext s).2.valks10Used =
        (s.valks10Used +
          if valksSelection cfg (s.level + 1) = some ValksType.v10 then 1 else 0)) := by
  refine ⟨?_, ?_, ?_, ?_, ?_, ?_, ?_, enh_step_valks_counts cfg ext s⟩
  · by_cases c100 : 0 < cfg.valks100From ∧ (cfg.valks100From : ℤ) ≤ next <;>
      by_cases c50 : 0 < cfg.valks50From ∧ (cfg.valks50From : ℤ) ≤ next <;>
      by_cases c10 : 0 < cfg.valks10From ∧ (cfg.valks10From : ℤ) ≤ next <;>
      simp [valksSelection, c100, c50, c10]
  · by_cases c100 : 0 < cfg.valks100From ∧ (cfg.valks100From : ℤ) ≤ next <;>
      by_cases c50 : 0 < cfg.valks50From ∧ (cfg.valks50From : ℤ) ≤ next <;>
      by_cases c10 : 0 < cfg.valks10From ∧ (cfg.valks10From : ℤ) ≤ next <;>
      simp [valksSelection, c100, c50, c10]
  · by_cases c100 : 0 < cfg.valks100From ∧ (cfg.valks100From : ℤ) ≤ next <;>
      by_cases c50 : 0 < cfg.valks50From ∧ (cfg.valks50From : ℤ) ≤ next <;>
      by_cases c10 : 0 < cfg.valks10From ∧ (cfg.valks10From : ℤ) ≤ next <;>
      simp [valksSelection, c100, c50, c10]
  · intro h0
    simp [valksSelection, h0]
    by_cases c50 : 0 < cfg.valks50From ∧ (cfg.valks50From : ℤ) ≤ next <;>
      by_cases c10 : 0 < cfg.valks10From ∧ (cfg.valks10From : ℤ) ≤ next <;>
      simp [c50, c10]
  · intro h0
    by_cases c100 : 0 < cfg.valks100From ∧ (cfg.valks100From : ℤ) ≤ next <;>
      by_cases c10 : 0 < cfg.valks10From ∧ (cfg.valks10From : ℤ) ≤ next <;>
      simp [valksSelection, c100, c10, h0]
  · intro h0
    by_cases c100 : 0 < cfg.valks100From ∧ (cfg.valks100From : ℤ) ≤ next <;>
      by_cases c50 : 0 < cfg.valks50From ∧ (cfg.valks50From : ℤ) ≤ next <;>
      simp [valksSelection, c100, c50, h0]
  · intro hrate
    rcases hv : valksSelection cfg next with _ | vt
    · simp [effectiveRate, hv, rateCache, hrate]
    · cases vt <;>
        simp [effectiveRate, hv, rateCacheValks10, rateCacheValks50, rateCacheValks100, hrate]

/-! ## Tier bounds invariant -/

theorem heptaOkta_level_cases (cfg : SimulationConfig) (ext : ℕ → ℚ) (isOkta : Bool)
    (s : EngineState) :
    (performHeptaOktaStep cfg ext isOkta s).2.level = s.level ∨
      (performHeptaOktaStep cfg ext isOkta s).2.level = (if isOkta then 9 else 8) := by
  cases isOkta <;>
    · simp only [performHeptaOktaStep]
      repeat' split
      all_goals simp

theorem enh_step_level_cases (cfg : SimulationConfig) (ext : ℕ → ℚ) (s : EngineState) :
    (performEnhancementStep cfg ext s).2.level = s.level + 1 ∨
      (performEnhancementStep cfg ext s).2.level = s.level ∨
      (0 < s.level ∧ (performEnhancementStep cfg ext s).2.level = s.level - 1) := by
  rcases hv : valksSelection cfg (s.level + 1) with _ | vt
  · simp only [performEnhancementStep, hv]
    repeat' split
    all_goals simp_all
  · cases vt <;>
      · simp only [performEnhancementStep, hv]
        repeat' split
        all_goals simp_all

theorem stepGo_level_bounds (cfg : SimulationConfig) (ext : ℕ → ℚ) (s : EngineState)
    (htarget : (cfg.targetLevel : ℤ) ≤ 10) (hInv : 0 ≤ s.level ∧ s.level ≤ 10)
    (hnc : ¬isComplete cfg s) :
    0 ≤ (stepGo cfg ext s).2.level ∧ (stepGo cfg ext s).2.level ≤ 10 := by
  have hlt : s.level < (cfg.targetLevel : ℤ) := lt_of_not_le hnc
  unfold stepGo
  by_cases hH : shouldUseHepta cfg s
  · rw [if_pos hH]
    rcases heptaOkta_level_cases cfg ext false s with h | h <;> rw [h] <;> (try simp) <;> omega
  · rw [if_neg hH]
    by_cases hO : shouldUseOkta cfg s
    · rw [if_pos hO]
      rcases heptaOkta_level_cases cfg ext true s with h | h <;> rw [h] <;> (try simp) <;> omega
    · rw [if_neg hO]
      rcases enh_step_level_cases cfg ext s with h | h | ⟨hp, h⟩ <;> rw [h] <;> omega

/-- C9.  For a configuration with start tier below target tier and
target at most 10, every state reachable from a fresh engine by any
sequence of attempt resolutions keeps the current tier within 0..10:
no failure sequence drives it below 0 and no success (sub-path
completion included) drives it above 10. -/
theorem level_bounds_invariant (cfg : SimulationConfig) (seed : Option ℕ) (s : EngineState)
    (hlt : cfg.startLevel < cfg.targetLevel) (htarget : cfg.targetLevel ≤ 10)
    (hreach : ReachableFrom cfg (mkEngine cfg seed) s) :
    0 ≤ s.level ∧ s.level ≤ 10 := by
  have htarget' : (cfg.targetLevel : ℤ) ≤ 10 := by exact_mod_cast htarget
  induction hreach with
  | refl =>
      constructor
      · simp [mkEngine]
      · show (cfg.startLevel : ℤ) ≤ 10
        have : cfg.startLevel ≤ 10 := by omega
        exact_mod_cast this
  | tail hab hbc ih =>
      obtain ⟨hnc, ext, rfl⟩ := hbc
      exact stepGo_level_bounds cfg ext _ htarget' ih hnc

/-! ## Monte Carlo aggregation: percentiles and worst case -/

theorem sorted_le_last (l : List ℚ) (hs : l.Sorted (· ≤ ·)) (x : ℚ) (hx : x ∈ l)
    (hne : l ≠ []) : x ≤ l.getD (l.length - 1) 0 := by
  obtain ⟨i, rfl⟩ := List.mem_iff_get.mp hx
  have hlen : 0 < l.length := List.length_pos.mpr hne
  have hidx : l.length - 1 < l.length := by omega
  rw [List.getD_eq_get l 0 hidx]
  refine hs.rel_get_of_le ?_
  have := i.isLt
  simp only [Fin.le_def]
  omega

/-- C7.  For a batch sorted ascending, the p-th percentile is the
element at index floor(N x p) clamped to N - 1 (no interpolation), the
reported worst value is the last sorted element, which is the maximum
of the batch, and a batch of size 0 yields well-defined zeros instead
of an exception. -/
theorem percentile_and_worst_spec (l : List ℚ) (p : ℚ) (hsorted : l.Sorted (· ≤ ·)) :
    (percentile ([] : List ℚ) p = 0 ∧ worstOf ([] : List ℚ) = 0 ∧
      average ([] : List ℚ) = 0) ∧
    (0 ≤ p →
      percentile l p = l.getD (min (⌊(l.length : ℚ) * p⌋).toNat (l.length - 1)) 0) ∧
    (l ≠ [] → worstOf l ∈ l ∧ ∀ x ∈ l, x ≤ worstOf l) := by
  refine ⟨⟨?_, ?_, ?_⟩, ?_, ?_⟩
  · simp [percentile, jsIndex]
  · simp [worstOf, jsIndex]
  · simp [average]
  · intro hp
    rcases eq_or_ne l [] with rfl | hne
    · simp [percentile, jsIndex]
    · have hlen : 0 < l.length := List.length_pos.mpr hne
      have hfloor : 0 ≤ ⌊(l.length : ℚ) * p⌋ :=
        Int.floor_nonneg.mpr (mul_nonneg (by positivity) hp)
      unfold percentile jsIndex
      rw [if_neg (by omega)]
      congr 1
      omega
  · intro hne
    have hlen : 0 < l.length := List.length_pos.mpr hne
    have hidx : l.length - 1 < l.length := by omega
    have hw : worstOf l = l.getD (l.length - 1) 0 := by
      unfold worstOf jsIndex
      rw [if_neg (by omega)]
      congr 1
      omega
    constructor
    · rw [hw, List.getD_eq_get l 0 hidx]
      exact List.get_mem l _ _
    · intro x hx
      rw [hw]
      exact sorted_le_last l hsorted x hx hne

/-! ## Precondition violations (C8) -/

/-- C8 counterexample.  Constructing a run with start tier 5 and
target tier 3 raises no error: the recording batch runner returns a
normal zero-work result (0 attempts, final tier 5, an empty recorded
step list) instead of signalling the violation, contradicting the
claim that construction with start at or above target raises an
error. -/
theorem precondition_violation_counterexample :
    (runFullSimulation cfgBad none extA true 5).map
      (fun r => (r.attempts, r.finalLevel, r.steps.isSome)) = some (0, 5, true) := by
  decide

/-- C8 (amended).  Stepping an already-complete engine raises the
`Simulation already complete` error synchronously; but constructing a
run with start tier at or above its target tier is accepted silently:
the engine is born complete and the recording runner returns a
zero-attempt result carrying the start tier, with no error raised. -/
theorem precondition_violation_behavior (cfg : SimulationConfig) (ext : ℕ → ℚ)
    (s : EngineState) (seed : Option ℕ) (record : Bool) (fuel : ℕ) :
    (isComplete cfg s → step cfg ext s = Except.error EngineError.simulationAlreadyComplete) ∧
    (cfg.targetLevel ≤ cfg.startLevel →
      (runFullSimulation cfg seed ext record (fuel + 1)).map
        (fun r => (r.attempts, r.finalLevel)) = some (0, (cfg.startLevel : ℤ))) := by
  constructor
  · intro hc
    simp [step, hc]
  · intro hle
    have hc : isComplete cfg (mkEngine cfg seed) := by
      show (cfg.targetLevel : ℤ) ≤ (mkEngine cfg seed).level
      simp only [mkEngine]
      exact_mod_cast hle
    rw [runFullSimulation]
    unfold runFullAux
    rw [if_pos hc]
    simp [resultOfState, mkEngine]

/-! ## Resource caps (C2) -/

/-- C2 counterexample.  With a finite scroll cap of 0, the capped
runner reaches a failed attempt at a restoration-eligible tier (the
identical uncapped run spends 200 scrolls right there), yet it does
not terminate with failure: it skips restoration, downgrades, keeps
running and returns success flag 1 with three attempts' worth of
totals — contradicting the claim that the run terminates early and
reports failure before any capped consumable would exceed its cap. -/
theorem cap_early_termination_counterexample :
    runFastWithLimits cfgA scrollCapZero none extA 10 = some ⟨3, 0, 0, 0, 0, 0, 0, 1⟩ ∧
      runFast cfgA none extA 10 = some ⟨2, 200, 0, 0, 0, 0, 0⟩ := by
  decide

theorem limits_crystal_cap_stops (cfg : SimulationConfig) (limits : ResourceLimits)
    (ext : ℕ → ℚ) (s : EngineState) (fuel : ℕ) (m : ℕ)
    (hnc : ¬isComplete cfg s) (hH : ¬shouldUseHepta cfg s) (hO : ¬shouldUseOkta cfg s)
    (hcap : limits.crystals = some m) (hhit : m ≤ s.crystals) :
    runLimitsAux cfg limits ext (fuel + 1) s = some (limitTotalsOfState s 0) := by
  have hblock : capBlocks limits.crystals s.crystals := by
    rw [hcap]; exact hhit
  unfold runLimitsAux limitsIter
  rw [if_neg hnc, if_neg hH, if_neg hO, if_pos hblock]

theorem limitsNormalBody_scrolls (cfg : SimulationConfig) (limits : ResourceLimits)
    (ext : ℕ → ℚ) (s : EngineState) :
    (limitsNormalBody cfg limits ext s).scrolls = s.scrolls ∨
      ((limitsNormalBody cfg limits ext s).scrolls = s.scrolls + RESTORATION_PER_ATTEMPT ∧
        ¬capExceededBy limits.scrolls (s.scrolls + RESTORATION_PER_ATTEMPT)) := by
  by_cases h100 : (0 < cfg.valks100From ∧ (cfg.valks100From : ℤ) ≤ s.level + 1) ∧
      ¬capBlocks limits.valks100 s.valks100Used <;>
    by_cases h50 : (0 < cfg.valks50From ∧ (cfg.valks50From : ℤ) ≤ s.level + 1) ∧
      ¬capBlocks limits.valks50 s.valks50Used <;>
    by_cases h10 : (0 < cfg.valks10From ∧ (cfg.valks10From : ℤ) ≤ s.level + 1) ∧
      ¬capBlocks limits.valks10 s.valks10Used <;>
    · simp only [limitsNormalBody, h100, h50, h10, scrolls_ite_push, if_true, if_false,
        iff_true, iff_false, ite_true, ite_false]
      repeat' split
      all_goals first
        | exact Or.inl rfl
        | exact Or.inr ⟨rfl, by assumption⟩

theorem limits_scrolls_bounded (cfg : SimulationConfig) (limits : ResourceLimits)
    (ext : ℕ → ℚ) (m : ℕ) (hcap : limits.scrolls = some m) :
    ∀ (fuel : ℕ) (s : EngineState) (r : LimitTotals), s.scrolls ≤ m →
      runLimitsAux cfg limits ext fuel s = some r → r.scrolls ≤ m := by
  intro fuel
  induction fuel with
  | zero => intro s r _ hrun; exact absurd hrun (by simp [runLimitsAux])
  | succ fuel ih =>
      intro s r hs hrun
      unfold runLimitsAux at hrun
      by_cases hc : isComplete cfg s
      · rw [if_pos hc, Option.some_inj] at hrun
        rw [← hrun]
        exact hs
      · rw [if_neg hc] at hrun
        unfold limitsIter at hrun
        by_cases hH : shouldUseHepta cfg s
        · rw [if_pos hH] at hrun
          refine ih (heptaFastBody cfg ext s) r ?_ hrun
          have hsc : (heptaFastBody cfg ext s).scrolls = s.scrolls := by
            simp [heptaFastBody, scrolls_ite_push]
          rw [hsc]; exact hs
        · rw [if_neg hH] at hrun
          by_cases hO : shouldUseOkta cfg s
          · rw [if_pos hO] at hrun
            refine ih (oktaFastBody cfg ext s) r ?_ hrun
            have hsc : (oktaFastBody cfg ext s).scrolls = s.scrolls := by
              simp [oktaFastBody, scrolls_ite_push]
            rw [hsc]; exact hs
          · rw [if_neg hO] at hrun
            by_cases hB : capBlocks limits.crystals s.crystals
            · rw [if_pos hB, Option.some_inj] at hrun
              rw [← hrun]
              exact hs
            · rw [if_neg hB] at hrun
              refine ih (limitsNormalBody cfg limits ext s) r ?_ hrun
              rcases limitsNormalBody_scrolls cfg limits ext s with h | ⟨h, hnx⟩
              · rw [h]; exact hs
              · rw [h]
                rw [hcap] at hnx
                unfold capExceededBy at hnx
                omega

theorem limitsIter_none_iff (cfg : SimulationConfig) (limits : ResourceLimits) (ext : ℕ → ℚ)
    (s : EngineState) (hH : ¬shouldUseHepta cfg s) (hO : ¬shouldUseOkta cfg s) :
    limitsIter cfg limits ext s = none ↔ capBlocks limits.crystals s.crystals := by
  unfold limitsIter
  rw [if_neg hH, if_neg hO]
  by_cases hB : capBlocks limits.crystals s.crystals
  · simp [hB]
  · simp [hB]

theorem limitsIter_isSome_of_no_crystal_cap (cfg : SimulationConfig) (limits : ResourceLimits)
    (ext : ℕ → ℚ) (s : EngineState) (hcap : limits.crystals = none) :
    limitsIter cfg limits ext s ≠ none := by
  unfold limitsIter
  by_cases hH : shouldUseHepta cfg s
  · simp [hH]
  · by_cases hO : shouldUseOkta cfg s
    · simp [hH, hO]
    · have hB : ¬capBlocks limits.crystals s.crystals := by
        rw [hcap]; exact fun h => h
      simp [hH, hO, hB]

theorem runLimitsAux_success_one (cfg : SimulationConfig) (limits : ResourceLimits)
    (ext : ℕ → ℚ) (hcap : limits.crystals = none) :
    ∀ (fuel : ℕ) (s : EngineState) (r : LimitTotals),
      runLimitsAux cfg limits ext fuel s = some r → r.success = 1 := by
  intro fuel
  induction fuel with
  | zero => intro s r h; exact absurd h (by simp [runLimitsAux])
  | succ fuel ih =>
      intro s r h
      unfold runLimitsAux at h
      by_cases hc : isComplete cfg s
      · rw [if_pos hc, Option.some_inj] at h
        rw [← h]
        rfl
      · rw [if_neg hc] at h
        rcases h2 : limitsIter cfg limits ext s with _ | s2
        · exact absurd h2 (limitsIter_isSome_of_no_crystal_cap cfg limits ext s hcap)
        · rw [h2] at h
          exact ih s2 r h

theorem limitsNormalBody_scrollcap_downgrade (cfg : SimulationConfig)
    (limits : ResourceLimits) (ext : ℕ → ℚ) (s : EngineState)
    (hA : ¬((cfg.gameSettings.anvilThresholds (s.level + 1)).getD 999 ≤
      (s.anvilEnergy (s.level + 1)).getD 0 ∧
        0 < (cfg.gameSettings.anvilThresholds (s.level + 1)).getD 999))
    (hfail : ¬((draw ext s.rng).1 < limitsBaseRate cfg limits s))
    (hL : 0 < s.level) (hR0 : 0 < cfg.restorationFrom)
    (hRle : (cfg.restorationFrom : ℤ) ≤ s.level)
    (hscap : capExceededBy limits.scrolls (s.scrolls + RESTORATION_PER_ATTEMPT)) :
    (limitsNormalBody cfg limits ext s).level = s.level - 1 ∧
      (limitsNormalBody cfg limits ext s).scrolls = s.scrolls := by
  by_cases h100 : (0 < cfg.valks100From ∧ (cfg.valks100From : ℤ) ≤ s.level + 1) ∧
      ¬capBlocks limits.valks100 s.valks100Used <;>
    by_cases h50 : (0 < cfg.valks50From ∧ (cfg.valks50From : ℤ) ≤ s.level + 1) ∧
      ¬capBlocks limits.valks50 s.valks50Used <;>
    by_cases h10 : (0 < cfg.valks10From ∧ (cfg.valks10From : ℤ) ≤ s.level + 1) ∧
      ¬capBlocks limits.valks10 s.valks10Used <;>
    · simp only [limitsNormalBody, h100, h50, h10, and_self, and_true, true_and,
        not_false_eq_true, ite_true, ite_false]
      rw [if_neg hA, if_neg hfail, if_pos ⟨hL, hR0, hRle⟩, if_pos hscap]
      simp

theorem limitsNormalBody_valks100_capped (cfg : SimulationConfig) (limits : ResourceLimits)
    (ext : ℕ → ℚ) (s : EngineState) (hcap : capBlocks limits.valks100 s.valks100Used) :
    (limitsNormalBody cfg limits ext s).valks100Used = s.valks100Used := by
  have h100 : ¬((0 < cfg.valks100From ∧ (cfg.valks100From : ℤ) ≤ s.level + 1) ∧
      ¬capBlocks limits.valks100 s.valks100Used) := fun h => h.2 hcap
  simp [limitsNormalBody, h100, apply_ite EngineState.valks100Used]

theorem limitsNormalBody_valks50_capped (cfg : SimulationConfig) (limits : ResourceLimits)
    (ext : ℕ → ℚ) (s : EngineState) (hcap : capBlocks limits.valks50 s.valks50Used) :
    (limitsNormalBody cfg limits ext s).valks50Used = s.valks50Used := by
  have h50 : ¬((0 < cfg.valks50From ∧ (cfg.valks50From : ℤ) ≤ s.level + 1) ∧
      ¬capBlocks limits.valks50 s.valks50Used) := fun h => h.2 hcap
  simp [limitsNormalBody, h50, apply_ite EngineState.valks50Used]

theorem limitsNormalBody_valks10_capped (cfg : SimulationConfig) (limits : ResourceLimits)
    (ext : ℕ → ℚ) (s : EngineState) (hcap : capBlocks limits.valks10 s.valks10Used) :
    (limitsNormalBody cfg limits ext s).valks10Used = s.valks10Used := by
  have h10 : ¬((0 < cfg.valks10From ∧ (cfg.valks10From : ℤ) ≤ s.level + 1) ∧
      ¬capBlocks limits.valks10 s.valks10Used) := fun h => h.2 hcap
  simp [limitsNormalBody, h10, apply_ite EngineState.valks10Used]

theorem limitsNormalBody_valks_fallback (cfg : SimulationConfig) (limits : ResourceLimits)
    (ext : ℕ → ℚ) (s : EngineState)
    (he100a : 0 < cfg.valks100From) (he100b : (cfg.valks100From : ℤ) ≤ s.level + 1)
    (hcap100 : capBlocks limits.valks100 s.valks100Used)
    (he50a : 0 < cfg.valks50From) (he50b : (cfg.valks50From : ℤ) ≤ s.level + 1)
    (hncap50 : ¬capBlocks limits.valks50 s.valks50Used) :
    (limitsNormalBody cfg limits ext s).valks50Used = s.valks50Used + 1 := by
  have h100 : ¬((0 < cfg.valks100From ∧ (cfg.valks100From : ℤ) ≤ s.level + 1) ∧
      ¬capBlocks limits.valks100 s.valks100Used) := fun h => h.2 hcap100
  have h50 : (0 < cfg.valks50From ∧ (cfg.valks50From : ℤ) ≤ s.level + 1) ∧
      ¬capBlocks limits.valks50 s.valks50Used := ⟨⟨he50a, he50b⟩, hncap50⟩
  simp [limitsNormalBody, h100, h50, apply_ite EngineState.valks50Used]

/-- C2 (amended).  Only the base-crystal cap terminates a capped run
early: a loop iteration takes the early exit exactly when the normal
path is reached with the crystal count at or past a finite crystal
cap, and the run then returns immediately with success flag 0 and the
partial totals accumulated so far; with no crystal cap the runner
never reports failure.  A restoration spend that would exceed a
finite scroll cap does not end the run: no scrolls are spent and the
tier downgrades by one, and the scroll total never exceeds a cap the
run started within.  A buff item whose cap is exhausted is never
spent: it is skipped in the priority selection (the next eligible
uncapped buff is used instead) rather than ending the run. -/
theorem cap_termination_behavior (cfg : SimulationConfig) (limits : ResourceLimits)
    (ext : ℕ → ℚ) (s : EngineState) (fuel : ℕ) (m k : ℕ) (r : LimitTotals)
    (hH : ¬shouldUseHepta cfg s) (hO : ¬shouldUseOkta cfg s) :
    (¬isComplete cfg s → limits.crystals = some m → m ≤ s.crystals →
      runLimitsAux cfg limits ext (fuel + 1) s = some (limitTotalsOfState s 0)) ∧
    (limitsIter cfg limits ext s = none ↔ capBlocks limits.crystals s.crystals) ∧
    (limits.crystals = none → ∀ (fuel2 : ℕ) (s2 : EngineState) (r2 : LimitTotals),
      runLimitsAux cfg limits ext fuel2 s2 = some r2 → r2.success = 1) ∧
    (¬((cfg.gameSettings.anvilThresholds (s.level + 1)).getD 999 ≤
        (s.anvilEnergy (s.level + 1)).getD 0 ∧
          0 < (cfg.gameSettings.anvilThresholds (s.level + 1)).getD 999) →
      ¬((draw ext s.rng).1 < limitsBaseRate cfg limits s) →
      0 < s.level → 0 < cfg.restorationFrom → (cfg.restorationFrom : ℤ) ≤ s.level →
      capExceededBy limits.scrolls (s.scrolls + RESTORATION_PER_ATTEMPT) →
      (limitsNormalBody cfg limits ext s).level = s.level - 1 ∧
        (limitsNormalBody cfg limits ext s).scrolls = s.scrolls) ∧
    (limits.scrolls = some k → s.scrolls ≤ k →
      runLimitsAux cfg limits ext fuel s = some r → r.scrolls ≤ k) ∧
    ((capBlocks limits.valks100 s.valks100Used →
        (limitsNormalBody cfg limits ext s).valks100Used = s.valks100Used) ∧
      (capBlocks limits.valks50 s.valks50Used →
        (limitsNormalBody cfg limits ext s).valks50Used = s.valks50Used) ∧
      (capBlocks limits.valks10 s.valks10Used →
        (limitsNormalBody cfg limits ext s).valks10Used = s.valks10Used)) ∧
    (0 < cfg.valks100From → (cfg.valks100From : ℤ) ≤ s.level + 1 →
      capBlocks limits.valks100 s.valks100Used →
      0 < cfg.valks50From → (cfg.valks50From : ℤ) ≤ s.level + 1 →
      ¬capBlocks limits.valks50 s.valks50Used →
      (limitsNormalBody cfg limits ext s).valks50Used = s.valks50Used + 1) :=
  ⟨fun hnc hcap hhit => limits_crystal_cap_stops cfg limits ext s fuel m hnc hH hO hcap hhit,
    limitsIter_none_iff cfg limits ext s hH hO,
    fun hcap => runLimitsAux_success_one cfg limits ext hcap,
    fun hA hfail hL hR0 hRle hscap =>
      limitsNormalBody_scrollcap_downgrade cfg limits ext s hA hfail hL hR0 hRle hscap,
    fun hcap hs hrun => limits_scrolls_bounded cfg limits ext k hcap fuel s r hs hrun,
    ⟨fun hcap => limitsNormalBody_valks100_capped cfg limits ext s hcap,
      fun hcap => limitsNormalBody_valks50_capped cfg limits ext s hcap,
      fun hcap => limitsNormalBody_valks10_capped cfg limits ext s hcap⟩,
    fun he100a he100b hcap100 he50a he50b hncap50 =>
      limitsNormalBody_valks_fallback cfg limits ext s he100a he100b hcap100 he50a he50b
        hncap50⟩

/-! ## Equivalence of the three batch runner variants (C3) -/

theorem heptaBody_eq_engine (cfg : SimulationConfig) (ext : ℕ → ℚ) (s : EngineState) (a : ℕ) :
    heptaFastBody cfg ext { s with attempts := a } =
      { (performHeptaOktaStep cfg ext false s).2 with attempts := a } := by
  by_cases hP : cfg.gameSettings.heptaOktaAnvilPity ≤ s.heptaPity
  · by_cases hC : cfg.gameSettings.heptaSubEnhancements ≤ s.heptaProgress + 1 <;>
      simp [heptaFastBody, performHeptaOktaStep, hP, hC]
  · by_cases hroll : (draw ext s.rng).1 < cfg.gameSettings.heptaOktaSuccessRate
    · by_cases hC : cfg.gameSettings.heptaSubEnhancements ≤ s.heptaProgress + 1 <;>
        simp [heptaFastBody, performHeptaOktaStep, hP, hroll, hC]
    · simp [heptaFastBody, performHeptaOktaStep, hP, hroll]

theorem oktaBody_eq_engine (cfg : SimulationConfig) (ext : ℕ → ℚ) (s : EngineState) (a : ℕ) :
    oktaFastBody cfg ext { s with attempts := a } =
      { (performHeptaOktaStep cfg ext true s).2 with attempts := a } := by
  by_cases hP : cfg.gameSettings.heptaOktaAnvilPity ≤ s.oktaPity
  · by_cases hC : cfg.gameSettings.oktaSubEnhancements ≤ s.oktaProgress + 1 <;>
      simp [oktaFastBody, performHeptaOktaStep, hP, hC]
  · by_cases hroll : (draw ext s.rng).1 < cfg.gameSettings.heptaOktaSuccessRate
    · by_cases hC : cfg.gameSettings.oktaSubEnhancements ≤ s.oktaProgress + 1 <;>
        simp [oktaFastBody, performHeptaOktaStep, hP, hroll, hC]
    · simp [oktaFastBody, performHeptaOktaStep, hP, hroll]

theorem normalBody_eq_engine (cfg : SimulationConfig) (ext : ℕ → ℚ) (s : EngineState) (a : ℕ) :
    fastNormalBody cfg ext { s with attempts := a } =
      { (performEnhancementStep cfg ext s).2 with attempts := a } := by
  have main : ∀ hv : Option ValksType, valksSelection cfg (s.level + 1) = hv →
      fastNormalBody cfg ext { s with attempts := a } =
        { (performEnhancementStep cfg ext s).2 with attempts := a } := by
    intro hvv hv
    by_cases hA : ((cfg.gameSettings.anvilThresholds (s.level + 1)).getD 999 ≤
        (s.anvilEnergy (s.level + 1)).getD 0 ∧
          0 < (cfg.gameSettings.anvilThresholds (s.level + 1)).getD 999)
    · rcases hvv with _ | vt
      · (simp [fastNormalBody, performEnhancementStep, hv, hA]) <;> omega
      · cases vt <;> (simp [fastNormalBody, performEnhancementStep, hv, hA]) <;> omega
    · by_cases hroll : (draw ext s.rng).1 < effectiveRate cfg (s.level + 1)
      · rcases hvv with _ | vt
        · (simp [fastNormalBody, performEnhancementStep, hv, hA, hroll]) <;> omega
        · cases vt <;> (simp [fastNormalBody, performEnhancementStep, hv, hA, hroll]) <;> omega
      · by_cases hrest : (0 < s.level ∧ 0 < cfg.restorationFrom ∧
            (cfg.restorationFrom : ℤ) ≤ s.level)
        · by_cases hq : (draw ext (draw ext s.rng).2).1 < RESTORATION_SUCCESS_RATE
          · rcases hvv with _ | vt
            · (simp [fastNormalBody, performEnhancementStep, hv, hA, hroll, hrest, hq,
                not_le.mpr hq]) <;> omega
            · cases vt <;> (simp [fastNormalBody, performEnhancementStep, hv, hA, hroll, hrest,
                hq, not_le.mpr hq]) <;> omega
          · rcases hvv with _ | vt
            · (simp [fastNormalBody, performEnhancementStep, hv, hA, hroll, hrest, hq,
                not_lt.mp hq]) <;> omega
            · cases vt <;> (simp [fastNormalBody, performEnhancementStep, hv, hA, hroll, hrest,
                hq, not_lt.mp hq]) <;> omega
        · by_cases hL : 0 < s.level
          · by_cases hrest2 : 0 < cfg.restorationFrom ∧ (cfg.restorationFrom : ℤ) ≤ s.level
            · exact absurd ⟨hL, hrest2.1, hrest2.2⟩ hrest
            · rcases hvv with _ | vt
              · (simp [fastNormalBody, performEnhancementStep, hv, hA, hroll, hrest2, hL]) <;>
                  omega
              · cases vt <;> (simp [fastNormalBody, performEnhancementStep, hv, hA, hroll,
                  hrest2, hL]) <;> omega
          · rcases hvv with _ | vt
            · (simp [fastNormalBody, performEnhancementStep, hv, hA, hroll, hrest, hL]) <;> omega
            · cases vt <;> (simp [fastNormalBody, performEnhancementStep, hv, hA, hroll, hrest,
                hL]) <;> omega
  exact main (valksSelection cfg (s.level + 1)) rfl

theorem fastIter_eq_stepGo (cfg : SimulationConfig) (ext : ℕ → ℚ) (s : EngineState) (a : ℕ) :
    fastIter cfg ext { s with attempts := a } = { (stepGo cfg ext s).2 with attempts := a } := by
  unfold fastIter stepGo
  by_cases hH : shouldUseHepta cfg s
  · rw [if_pos (show shouldUseHepta cfg { s with attempts := a } from hH), if_pos hH]
    exact heptaBody_eq_engine cfg ext s a
  · rw [if_neg (show ¬shouldUseHepta cfg { s with attempts := a } from hH),
      if_neg hH]
    by_cases hO : shouldUseOkta cfg s
    · rw [if_pos (show shouldUseOkta cfg { s with attempts := a } from hO), if_pos hO]
      exact oktaBody_eq_engine cfg ext s a
    · rw [if_neg (show ¬shouldUseOkta cfg { s with attempts := a } from hO), if_neg hO]
      exact normalBody_eq_engine cfg ext s a

theorem runFastAux_eq_runFullAux (cfg : SimulationConfig) (ext : ℕ → ℚ) (record : Bool) :
    ∀ (fuel : ℕ) (s : EngineState) (a : ℕ),
      runFastAux cfg ext fuel { s with attempts := a } =
        (runFullAux cfg ext record fuel s).map fastTotalsOf := by
  intro fuel
  induction fuel with
  | zero => intro s a; rfl
  | succ fuel ih =>
      intro s a
      unfold runFastAux runFullAux
      by_cases hc : isComplete cfg s
      · rw [if_pos (show isComplete cfg { s with attempts := a } from hc), if_pos hc]
        simp [fastTotalsOfState, fastTotalsOf, resultOfState]
      · rw [if_neg (show ¬isComplete cfg { s with attempts := a } from hc), if_neg hc]
        rw [step, if_neg hc]
        rw [fastIter_eq_stepGo cfg ext s a, ih (stepGo cfg ext s).2 a]
        rw [Option.map_map]
        rfl

theorem limitsNormalBody_noLimits (cfg : SimulationConfig) (ext : ℕ → ℚ) (s : EngineState) :
    limitsNormalBody cfg noLimits ext s = fastNormalBody cfg ext s := by
  by_cases c100 : 0 < cfg.valks100From ∧ (cfg.valks100From : ℤ) ≤ s.level + 1 <;>
    by_cases c50 : 0 < cfg.valks50From ∧ (cfg.valks50From : ℤ) ≤ s.level + 1 <;>
    by_cases c10 : 0 < cfg.valks10From ∧ (cfg.valks10From : ℤ) ≤ s.level + 1 <;>
    simp [limitsNormalBody, limitsBaseRate, fastNormalBody, valksSelection, effectiveRate,
      noLimits, capBlocks, capExceededBy, c100, c50, c10]

theorem limitsIter_noLimits (cfg : SimulationConfig) (ext : ℕ → ℚ) (s : EngineState) :
    limitsIter cfg noLimits ext s = some (fastIter cfg ext s) := by
  unfold limitsIter fastIter
  by_cases hH : shouldUseHepta cfg s
  · rw [if_pos hH, if_pos hH]
  · rw [if_neg hH, if_neg hH]
    by_cases hO : shouldUseOkta cfg s
    · rw [if_pos hO, if_pos hO]
    · rw [if_neg hO, if_neg hO]
      rw [if_neg (show ¬capBlocks noLimits.crystals s.crystals from fun h => h)]
      rw [limitsNormalBody_noLimits]

theorem runLimitsAux_noLimits (cfg : SimulationConfig) (ext : ℕ → ℚ) :
    ∀ (fuel : ℕ) (s : EngineState),
      runLimitsAux cfg noLimits ext fuel s =
        (runFastAux cfg ext fuel s).map fun t => withSuccess t 1 := by
  intro fuel
  induction fuel with
  | zero => intro s; rfl
  | succ fuel ih =>
      intro s
      unfold runLimitsAux runFastAux
      by_cases hc : isComplete cfg s
      · rw [if_pos hc, if_pos hc]
        simp [limitTotalsOfState, fastTotalsOfState, withSuccess]
      · rw [if_neg hc, if_neg hc]
        rw [limitsIter_noLimits]
        exact ih (fastIter cfg ext s)

theorem runFullAux_steps_isSome (cfg : SimulationConfig) (ext : ℕ → ℚ) :
    ∀ (fuel : ℕ) (s : EngineState) (r : SimulationResult),
      runFullAux cfg ext true fuel s = some r → r.steps.isSome = true := by
  intro fuel
  induction fuel with
  | zero => intro s r hrun; exact absurd hrun (by simp [runFullAux])
  | succ fuel ih =>
      intro s r hrun
      unfold runFullAux at hrun
      by_cases hc : isComplete cfg s
      · rw [if_pos hc, Option.some_inj] at hrun
        rw [← hrun]
        simp [resultOfState]
      · rw [if_neg hc, step, if_neg hc] at hrun
        simp only [Option.map_eq_some'] at hrun
        obtain ⟨r0, hr0, rfl⟩ := hrun
        have := ih _ r0 hr0
        simpa using this

/-- C3.  On a fresh engine, the recording variant, the fast variant,
and the capped variant with all caps unlimited produce identical
scalar totals (crystals, scrolls, silver, exquisite crystals, and the
three buff-item counts) for every configuration, seed and entropy
stream; the recording variant is a strict superset, additionally
carrying the per-attempt outcome sequence. -/
theorem variants_scalar_equivalence (cfg : SimulationConfig) (seed : Option ℕ) (ext : ℕ → ℚ)
    (record : Bool) (fuel : ℕ) :
    runFast cfg seed ext fuel = (runFullSimulation cfg seed ext record fuel).map fastTotalsOf ∧
      runFastWithLimits cfg noLimits seed ext fuel =
        (runFullSimulation cfg seed ext record fuel).map
          (fun r => withSuccess (fastTotalsOf r) 1) ∧
      (∀ r, runFullSimulation cfg seed ext true fuel = some r → r.steps.isSome = true) := by
  have hfast : runFast cfg seed ext fuel =
      (runFullSimulation cfg seed ext record fuel).map fastTotalsOf := by
    rw [runFast, runFullSimulation,
      show fastInit (mkEngine cfg seed) = { mkEngine cfg seed with attempts := 0 } from rfl]
    exact runFastAux_eq_runFullAux cfg ext record fuel (mkEngine cfg seed) 0
  refine ⟨hfast, ?_, ?_⟩
  · rw [runFastWithLimits, runLimitsAux_noLimits]
    rw [show runFastAux cfg ext fuel (fastInit (mkEngine cfg seed)) =
        runFast cfg seed ext fuel from rfl]
    rw [hfast, Option.map_map]
    rfl
  · intro r hr
    exact runFullAux_steps_isSome cfg ext fuel (mkEngine cfg seed) r hr

/-! ## Counterexample for C5 and concrete witnesses -/

/-- C5 counterexample.  Concrete failed attempt at tier 1 with
restoration active: the prevention draw (1/10) is BELOW the item's
success probability (1/2), yet the item SUCCEEDS and the tier is
unchanged — the claim predicted that a draw below the success
probability means the item fails and the tier decrements by one. -/
theorem restoration_claim_counterexample :
    (draw extA (draw extA (mkEngine cfgA none).rng).2).1 < RESTORATION_SUCCESS_RATE ∧
      (performEnhancementStep cfgA extA (mkEngine cfgA none)).1.success = false ∧
      (performEnhancementStep cfgA extA (mkEngine cfgA none)).1.restorationAttempted = true ∧
      (performEnhancementStep cfgA extA (mkEngine cfgA none)).1.restorationSuccess = true ∧
      (performEnhancementStep cfgA extA (mkEngine cfgA none)).2.level =
        (mkEngine cfgA none).level := by
  decide

theorem pity_trigger_reset_increment_witness :
    0 < (cfgA.gameSettings.anvilThresholds (sPity.level + 1)).getD 999 ∧
      (cfgA.gameSettings.anvilThresholds (sPity.level + 1)).getD 999 ≤
        (sPity.anvilEnergy (sPity.level + 1)).getD 0 ∧
      (performEnhancementStep cfgA extA sPity).1.success = true ∧
      (performEnhancementStep cfgA extA sPity).2.anvilEnergy (sPity.level + 1) = some 0 := by
  have h := pity_trigger_reset_increment cfgA extA sPity
  have h1 := h.1 (by decide) (by decide)
  exact ⟨by decide, by decide, h1.1, h.2.2.1 h1.1⟩

theorem restoration_failure_resolution_witness :
    (performEnhancementStep cfgA extA (mkEngine cfgA none)).1.restorationAttempted = true ∧
      (performEnhancementStep cfgA extA (mkEngine cfgA none)).2.scrolls =
        (mkEngine cfgA none).scrolls + RESTORATION_PER_ATTEMPT ∧
      (performEnhancementStep cfgA extA (mkEngine cfgA none)).2.level =
        (mkEngine cfgA none).level := by
  have h :=
    (restoration_failure_resolution cfgA extA (mkEngine cfgA none) (by decide) (by decide)).2.1
      (by decide) (by decide) (by decide)
  exact ⟨h.2.1, h.2.2.1, (h.2.2.2.1 (by decide)).2⟩

theorem subpath_level_transitions_witness :
    (performHeptaOktaStep cfgA extA false sHepta).1.pathComplete = true ∧
      (performHeptaOktaStep cfgA extA false sHepta).2.level = 8 ∧
      (performHeptaOktaStep cfgA extA false sHepta).2.heptaProgress = 0 ∧
      (performHeptaOktaStep cfgA extA false sHepta).2.heptaPity = 0 := by
  have h := (subpath_level_transitions cfgA extA false sHepta).2.1 (by decide)
  have h8 : (performHeptaOktaStep cfgA extA false sHepta).2.level = 8 := by simpa using h.1
  exact ⟨by decide, h8, (h.2.2 rfl).1, (h.2.2 rfl).2⟩

theorem percentile_and_worst_spec_witness :
    List.Sorted (· ≤ ·) [(0 : ℚ), 1] ∧ ([(0 : ℚ), 1] ≠ []) ∧
      worstOf [(0 : ℚ), 1] ∈ [(0 : ℚ), 1] ∧ ∀ x ∈ [(0 : ℚ), 1], x ≤ worstOf [(0 : ℚ), 1] := by
  have hs : List.Sorted (· ≤ ·) [(0 : ℚ), 1] := by
    simp [List.sorted_cons]
  have h := (percentile_and_worst_spec [(0 : ℚ), 1] 0 hs).2.2 (by simp)
  exact ⟨hs, by simp, h.1, h.2⟩

theorem precondition_violation_behavior_witness :
    isComplete cfgBad (mkEngine cfgBad none) ∧
      step cfgBad extA (mkEngine cfgBad none) =
        Except.error EngineError.simulationAlreadyComplete ∧
      cfgBad.targetLevel ≤ cfgBad.startLevel ∧
      (runFullSimulation cfgBad none extA false (3 + 1)).map
        (fun r => (r.attempts, r.finalLevel)) = some (0, (cfgBad.startLevel : ℤ)) := by
  have h := precondition_violation_behavior cfgBad extA (mkEngine cfgBad none) none false 3
  exact ⟨by decide, h.1 (by decide), by decide, h.2 (by decide)⟩

theorem cap_termination_behavior_witness :
    ¬isComplete cfgA (mkEngine cfgA none) ∧ crystalCapZero.crystals = some 0 ∧
      runLimitsAux cfgA crystalCapZero extA 4 (mkEngine cfgA none) =
        some (limitTotalsOfState (mkEngine cfgA none) 0) := by
  have h :=
    cap_termination_behavior cfgA crystalCapZero extA (mkEngine cfgA none) 3 0 0
      ⟨0, 0, 0, 0, 0, 0, 0, 0⟩ (by decide) (by decide)
  exact ⟨by decide, rfl, h.1 (by decide) rfl (by decide)⟩

theorem variants_scalar_equivalence_witness :
    ∃ r, runFullSimulation cfgA none extA true 10 = some r ∧ r.steps.isSome = true := by
  rcases h : runFullSimulation cfgA none extA true 10 with _ | r
  · have : (runFullSimulation cfgA none extA true 10).isSome = true := by decide
    rw [h] at this
    exact absurd this (by simp)
  · exact ⟨r, rfl, (variants_scalar_equivalence cfgA none extA true 10).2.2 r h⟩

theorem level_bounds_invariant_witness :
    cfgA.startLevel < cfgA.targetLevel ∧ cfgA.targetLevel ≤ 10 ∧
      0 ≤ (mkEngine cfgA none).level ∧ (mkEngine cfgA none).level ≤ 10 := by
  have h :=
    level_bounds_invariant cfgA none (mkEngine cfgA none) (by decide) (by decide)
      Relation.ReflTransGen.refl
  exact ⟨by decide, by decide, h.1, h.2⟩

theorem valks_priority_selection_witness :
    cfgV.gameSettings.enhancementRates 2 = some (mkRat 1 2) ∧
      effectiveRate cfgV 2 =
        (match valksSelection cfgV 2 with
          | none => mkRat 1 2
          | some ValksType.v10 => min 1 (mkRat 1 2 * VALKS_MULTIPLIER_10)
          | some ValksType.v50 => min 1 (mkRat 1 2 * VALKS_MULTIPLIER_50)
          | some ValksType.v100 => min 1 (mkRat 1 2 * VALKS_MULTIPLIER_100)) := by
  have h := valks_priority_selection cfgV extA (mkEngine cfgV none) 2 (mkRat 1 2)
  exact ⟨by decide, h.2.2.2.2.2.2.1 (by decide)⟩

end BdmSim
